import Mathlib

/-!
Verification development for the SEC-filing resolution and ingestion core
(src/lib/sec-filings.ts).  The TypeScript source is shallowly embedded:
asynchronous network and filesystem effects are passed in explicitly through
an environment record, JavaScript numbers that can be NaN are modelled by an
inductive type, and JavaScript truthiness is made explicit wherever the
source relies on it.
-/

set_option maxRecDepth 10000

/-! ## JavaScript-semantics primitives -/

/-- Parse a non-empty all-digit string as a natural number, the way
JavaScript Number() reads an integer literal. -/
def digitsToNat? (s : String) : Option Nat :=
  if s ≠ "" ∧ s.data.all Char.isDigit then
    some (s.data.foldl (fun n c => n * 10 + (c.toNat - 48)) 0)
  else none

/-- Result of a JavaScript numeric coercion: either NaN or a finite value.
The upstream XML/JSON payloads never produce infinities here, so finite
values suffice. -/
inductive JNum where
  | nan : JNum
  | num : ℚ → JNum
deriving Repr, DecidableEq

/-- JavaScript value of a parsed XML/JSON leaf as delivered by the parser
(trimValues + parseTagValue): a missing field, an already-numeric value, or
a leftover string. -/
inductive JVal where
  | undef : JVal
  | num : ℚ → JVal
  | str : String → JVal
deriving Repr, DecidableEq

/-- JavaScript Number() coercion on a leaf value.  Number(undefined) is NaN;
numbers pass through; strings of decimal digits parse (the XML parser has
already converted ordinary numeric text, so remaining strings are almost
always non-numeric), the empty string is 0 and anything else is NaN. -/
def jsNumber : JVal → JNum
  | .undef => .nan
  | .num q => .num q
  | .str s =>
    if s = "" then .num 0
    else match digitsToNat? s with
      | some n => .num n
      | none => .nan

/-- JavaScript truthiness of a numeric value: NaN and 0 are falsy. -/
def JNum.truthy : JNum → Bool
  | .nan => false
  | .num q => decide (q ≠ 0)

/-- JavaScript x || y on numbers. -/
def jsOrNum (a b : JNum) : JNum := if a.truthy then a else b

/-- JavaScript x || undefined on a number: NaN and 0 collapse to undefined. -/
def jsNumOrUndef (a : JNum) : Option ℚ :=
  match a with
  | .nan => none
  | .num q => if q = 0 then none else some q

/-- JavaScript ?? (nullish coalescing) on possibly-missing leaves. -/
def jsNullish (a b : JVal) : JVal :=
  match a with
  | .undef => b
  | v => v

/-- Truthiness of an optional string: undefined and the empty string are falsy. -/
def truthyStr : Option String → Bool
  | none => false
  | some s => s ≠ ""

/-- JavaScript a || b where a and b are possibly-undefined strings. -/
def jsOrStr (a b : Option String) : Option String :=
  if truthyStr a then a else b

/-- Truthiness of an optional array: undefined is falsy, any array (even
empty) is truthy. -/
def truthyArr {α : Type} : Option (List α) → Bool
  | none => false
  | some _ => true

/-- Truthiness of includeSections?.length: undefined or empty list is falsy. -/
def truthyLen {α : Type} : Option (List α) → Bool
  | none => false
  | some l => l.length != 0

/-- Truthiness of an optional integer (filingYear): undefined and 0 are falsy. -/
def truthyInt : Option Int → Bool
  | none => false
  | some n => n ≠ 0

/-- String.prototype.toLowerCase (character-wise). -/
def jsToLower (s : String) : String := String.mk (s.data.map Char.toLower)

/-- String.prototype.toUpperCase (character-wise). -/
def jsToUpper (s : String) : String := String.mk (s.data.map Char.toUpper)

/-- String.prototype.trim: strip whitespace from both ends. -/
def jsTrim (s : String) : String :=
  String.mk
    (((s.data.dropWhile Char.isWhitespace).reverse.dropWhile
        Char.isWhitespace).reverse)

/-- String.prototype.startsWith. -/
def jsStartsWith (s pat : String) : Bool := pat.data.isPrefixOf s.data

/-- String.prototype.endsWith. -/
def jsEndsWith (s pat : String) : Bool := pat.data.isSuffixOf s.data

/-- The global dash-to-empty replace: drop every dash character. -/
def stripDashes (s : String) : String := String.mk (s.data.filter (· != '-'))

/-- String.prototype.slice(0, n) (and String.prototype.take): the first n
characters. -/
def strTake (s : String) (n : Nat) : String := String.mk (s.data.take n)

/-- Array.prototype.slice(0, end) with a possibly negative end index. -/
def jsSliceTo {α : Type} (l : List α) (e : Int) : List α :=
  let n : Int := if e < 0 then (l.length : Int) + e else e
  l.take n.toNat

/-- String.prototype.padStart(n, '0'). -/
def padStartZeros (s : String) (n : Nat) : String :=
  if s.length ≥ n then s else String.mk (List.replicate (n - s.length) '0') ++ s

/-- s.replace(/^0+/, ""): drop the leading run of zero characters. -/
def dropLeadingZeros (s : String) : String :=
  String.mk (s.data.dropWhile (· = '0'))

/-- String(Number(s)) for the strings this code feeds it (decimal digit
strings, possibly zero-padded): the canonical decimal form of the number.
Number("") is 0; a non-numeric string would print as NaN. -/
def strNumber (s : String) : String :=
  if s = "" then "0"
  else match digitsToNat? s with
    | some n => toString n
    | none => "NaN"

/-- Substring test on character lists (JavaScript String.prototype.includes). -/
def subList {α : Type} [DecidableEq α] (sub : List α) : List α → Bool
  | [] => sub.isEmpty
  | x :: xs => sub.isPrefixOf (x :: xs) || subList sub xs

/-- JavaScript s.includes(sub). -/
def strIncludes (s sub : String) : Bool := subList sub.data s.data

/-! ## Data model (interfaces of src/lib/sec-filings.ts) -/

/-- The two supported form types of SecFilingRequest.formType. -/
inductive FormType where
  | tenK : FormType
  | thirteenF : FormType
deriving Repr, DecidableEq

/-- The literal form-type string as it appears in requests and submissions. -/
def FormType.str : FormType → String
  | .tenK => "10-K"
  | .thirteenF => "13F-HR"

/-- SecFilingRequest: the inbound request object. -/
structure SecFilingRequest where
  ticker : Option String := none
  cik : Option String := none
  companyName : Option String := none
  formType : Option FormType := none
  filingDate : Option String := none
  filingYear : Option Int := none
  includeSections : Option (List String) := none
  limitHoldings : Option Int := none
deriving Repr, DecidableEq

/-- CompanyTickerRecord: one entry of company_tickers.json. -/
structure CompanyTickerRecord where
  cik_str : Nat
  ticker : String
  title : String
deriving Repr, DecidableEq

/-- SecFilingEntry: one submission-history entry after per-index assembly.
JavaScript yields undefined for a ragged array access; that behaves exactly
like the empty string in every comparison this code performs, so the plain
string fields keep "" there, while the optional reportDate stays optional. -/
structure SecFilingEntry where
  accessionNumber : String
  filingDate : String
  reportDate : Option String
  form : String
  primaryDocument : String
deriving Repr, DecidableEq

/-- The filings.recent object of a submissions document. -/
structure RecentFilings where
  form : Option (List String)
  accessionNumber : List String
  filingDate : List String
  reportDate : List String
  primaryDocument : List String
deriving Repr, DecidableEq

/-- A submissions JSON document (the fields this code reads). -/
structure Subs where
  name : Option String
  filings : Option RecentFilings
deriving Repr, DecidableEq

/-- votingAuthority node of an information-table row, under the two tag
casings the upstream documents use.  The JavaScript key "none" is spelled
noneV to avoid clashing with Option.none. -/
structure VotingRec where
  Sole : JVal := .undef
  sole : JVal := .undef
  Shared : JVal := .undef
  shared : JVal := .undef
  None : JVal := .undef
  noneV : JVal := .undef
deriving Repr, DecidableEq

/-- shrsOrPrnAmt node of an information-table row. -/
structure ShrsRec where
  sshPrnamt : JVal := .undef
  sshprnamt : JVal := .undef
  sshPrnamtType : Option String := none
deriving Repr, DecidableEq

/-- One raw infoTable row as delivered by the XML parser (both tag casings). -/
structure InfoRow where
  nameOfIssuer : Option String := none
  nameofIssuer : Option String := none
  titleOfClass : Option String := none
  cusip : Option String := none
  value : JVal := .undef
  shrsOrPrnAmt : Option ShrsRec := none
  investmentDiscretion : Option String := none
  putCall : Option String := none
  putcall : Option String := none
  otherManager : Option String := none
  votingAuthority : Option VotingRec := none
  votingauthority : Option VotingRec := none
deriving Repr, DecidableEq

/-- The value located by the informationTable/infoTable chain: either an
array of (possibly null) rows or a single row object. -/
inductive JsTableVal where
  | arr : List (Option InfoRow) → JsTableVal
  | obj : InfoRow → JsTableVal
deriving Repr, DecidableEq

/-- Normalized votingAuthority of a holding record. -/
structure VotingOut where
  sole : Option ℚ
  shared : Option ℚ
  noneV : Option ℚ
deriving Repr, DecidableEq

/-- One normalized holding record.  value is a raw Number() coercion in the
source, so it is carried as a JNum (it can be NaN); shares went through an
isFinite guard, so it is a plain optional rational. -/
structure HoldingRecord where
  nameOfIssuer : Option String
  titleOfClass : Option String
  cusip : Option String
  value : JNum
  shares : Option ℚ
  shareType : Option String
  investmentDiscretion : Option String
  putCall : Option String
  otherManager : Option String
  votingAuthority : Option VotingOut
deriving Repr, DecidableEq

/-- holdingsStats of a summary. -/
structure HoldingsStats where
  totalPositions : Nat
  totalValueMillions : ℚ
deriving Repr, DecidableEq

/-- SecFilingMetadata. -/
structure SecFilingMetadata where
  companyName : String
  ticker : Option String
  cik : String
  formType : FormType
  accessionNumber : String
  filingDate : String
  reportDate : Option String
  primaryDocumentUrl : String
  informationTableUrl : Option String
  cached : Bool
  cachePath : Option String
deriving Repr, DecidableEq

/-- SecFilingSummary: the unit returned to the caller and (plus a fetchedAt
stamp) the unit persisted to the cache. -/
structure SecFilingSummary where
  metadata : SecFilingMetadata
  sections : List (String × String)
  holdings : Option (List HoldingRecord)
  holdingsStats : Option HoldingsStats
deriving Repr, DecidableEq

/-- A cached file: the summary plus the fetchedAt timestamp added at write
time. -/
structure StoredSummary where
  summary : SecFilingSummary
  fetchedAt : String
deriving Repr, DecidableEq

/-- One entry of a filing's index.json directory.item list. -/
structure IndexItem where
  name : String
  size : Option String := none
deriving Repr, DecidableEq

/-- directory node of index.json. -/
structure IndexDirectory where
  item : Option (List IndexItem)
deriving Repr, DecidableEq

/-- index.json document. -/
structure IndexDoc where
  directory : Option IndexDirectory
deriving Repr, DecidableEq

/-- Result of the two regex extractions on the EDGAR CGI Atom payload:
the digits captured by the cik pattern (leading zeros already stripped by
the 0* prefix) and the conformed-name capture. -/
structure CgiInfo where
  cikDigits : Option String
  conformedName : Option String
deriving Repr, DecidableEq

/-- The resolved company triple returned by resolveCompany. -/
structure Company where
  cik : String
  ticker : Option String
  companyName : Option String
deriving Repr, DecidableEq

/-- Typed failures propagated out of fetchSecFilingSummary. -/
inductive SecError where
  | fetchFailure : SecError
  | resolutionFailure : String → SecError
  | noFilingFound : String → SecError
deriving Repr, DecidableEq

/-- The environment supplying every external effect the core performs:
the deployment-mode flag, the loaded ticker directory (in Object.values
scan order), the CGI company-search outcome, the per-cik (zero-padded)
submissions documents, the on-disk cache contents, per-url document fetches,
per-url index.json fetches, and per-url information-table fetch + parse +
locate outcomes.  Except.error models a thrown fetch/parse failure; the
in-process memoization of the directory is invisible to callers and is not
modelled. -/
structure Env where
  selfHosted : Bool
  nowIso : String
  directory : Except Unit (List CompanyTickerRecord)
  cgi : Except Unit CgiInfo
  submissionsAt : String → Except Unit Subs
  cacheFile : String → Option StoredSummary
  fetchDoc : String → Except Unit String
  fetchIndex : String → Except Unit IndexDoc
  locatedTable : String → Except Unit (Option JsTableVal)

/-! ## Known 13F filers override table (KNOWN_13F_FILERS) -/

/-- One curated entry: verified CIK and display name. -/
structure KnownFiler where
  cik : String
  name : String
deriving Repr, DecidableEq

/-- KNOWN_13F_FILERS: the static curated alias → filer map, in source order. -/
def KNOWN_13F_FILERS : List (String × KnownFiler) := [
  ("vanguard", ⟨"102909", "VANGUARD GROUP INC"⟩),
  ("vanguard group", ⟨"102909", "VANGUARD GROUP INC"⟩),
  ("vanguard group inc", ⟨"102909", "VANGUARD GROUP INC"⟩),
  ("the vanguard group", ⟨"102909", "VANGUARD GROUP INC"⟩),
  ("blackrock", ⟨"1364742", "BlackRock Finance, Inc."⟩),
  ("blackrock inc", ⟨"1364742", "BlackRock Finance, Inc."⟩),
  ("blackrock finance", ⟨"1364742", "BlackRock Finance, Inc."⟩),
  ("state street", ⟨"93751", "STATE STREET CORP"⟩),
  ("state street corp", ⟨"93751", "STATE STREET CORP"⟩),
  ("state street corporation", ⟨"93751", "STATE STREET CORP"⟩),
  ("fidelity", ⟨"315066", "FMR LLC"⟩),
  ("fmr", ⟨"315066", "FMR LLC"⟩),
  ("fmr llc", ⟨"315066", "FMR LLC"⟩),
  ("fidelity management", ⟨"315066", "FMR LLC"⟩),
  ("fidelity investments", ⟨"315066", "FMR LLC"⟩),
  ("berkshire hathaway", ⟨"1067983", "BERKSHIRE HATHAWAY INC"⟩),
  ("berkshire hathaway inc", ⟨"1067983", "BERKSHIRE HATHAWAY INC"⟩),
  ("berkshire", ⟨"1067983", "BERKSHIRE HATHAWAY INC"⟩),
  ("citadel", ⟨"1423053", "CITADEL ADVISORS LLC"⟩),
  ("citadel advisors", ⟨"1423053", "CITADEL ADVISORS LLC"⟩),
  ("citadel advisors llc", ⟨"1423053", "CITADEL ADVISORS LLC"⟩),
  ("bridgewater", ⟨"1350694", "Bridgewater Associates, LP"⟩),
  ("bridgewater associates", ⟨"1350694", "Bridgewater Associates, LP"⟩),
  ("two sigma", ⟨"1179392", "TWO SIGMA INVESTMENTS, LP"⟩),
  ("two sigma investments", ⟨"1179392", "TWO SIGMA INVESTMENTS, LP"⟩),
  ("renaissance", ⟨"1037389", "RENAISSANCE TECHNOLOGIES LLC"⟩),
  ("renaissance technologies", ⟨"1037389", "RENAISSANCE TECHNOLOGIES LLC"⟩),
  ("renaissance tech", ⟨"1037389", "RENAISSANCE TECHNOLOGIES LLC"⟩),
  ("rentec", ⟨"1037389", "RENAISSANCE TECHNOLOGIES LLC"⟩),
  ("de shaw", ⟨"1009207", "D. E. Shaw & Co., Inc."⟩),
  ("d.e. shaw", ⟨"1009207", "D. E. Shaw & Co., Inc."⟩),
  ("d e shaw", ⟨"1009207", "D. E. Shaw & Co., Inc."⟩),
  ("millennium", ⟨"1273087", "MILLENNIUM MANAGEMENT LLC"⟩),
  ("millennium management", ⟨"1273087", "MILLENNIUM MANAGEMENT LLC"⟩),
  ("point72", ⟨"1603466", "Point72 Asset Management, L.P."⟩),
  ("point72 asset management", ⟨"1603466", "Point72 Asset Management, L.P."⟩),
  ("aqr", ⟨"1167557", "AQR CAPITAL MANAGEMENT LLC"⟩),
  ("aqr capital", ⟨"1167557", "AQR CAPITAL MANAGEMENT LLC"⟩),
  ("aqr capital management", ⟨"1167557", "AQR CAPITAL MANAGEMENT LLC"⟩),
  ("tiger global", ⟨"1167483", "TIGER GLOBAL MANAGEMENT LLC"⟩),
  ("tiger global management", ⟨"1167483", "TIGER GLOBAL MANAGEMENT LLC"⟩),
  ("baupost", ⟨"1061768", "BAUPOST GROUP LLC/MA"⟩),
  ("baupost group", ⟨"1061768", "BAUPOST GROUP LLC/MA"⟩),
  ("third point", ⟨"1040273", "Third Point LLC"⟩),
  ("third point llc", ⟨"1040273", "Third Point LLC"⟩),
  ("lone pine", ⟨"1061165", "LONE PINE CAPITAL LLC"⟩),
  ("lone pine capital", ⟨"1061165", "LONE PINE CAPITAL LLC"⟩),
  ("pershing square", ⟨"1336528", "Pershing Square Capital Management, L.P."⟩),
  ("pershing square capital", ⟨"1336528", "Pershing Square Capital Management, L.P."⟩),
  ("soros", ⟨"1029160", "SOROS FUND MANAGEMENT LLC"⟩),
  ("soros fund management", ⟨"1029160", "SOROS FUND MANAGEMENT LLC"⟩),
  ("coatue", ⟨"1135730", "COATUE MANAGEMENT LLC"⟩),
  ("coatue management", ⟨"1135730", "COATUE MANAGEMENT LLC"⟩),
  ("viking global", ⟨"1103804", "VIKING GLOBAL INVESTORS LP"⟩),
  ("viking global investors", ⟨"1103804", "VIKING GLOBAL INVESTORS LP"⟩),
  ("elliott", ⟨"1791786", "Elliott Investment Management L.P."⟩),
  ("elliott management", ⟨"1791786", "Elliott Investment Management L.P."⟩),
  ("elliott investment management", ⟨"1791786", "Elliott Investment Management L.P."⟩),
  ("greenlight", ⟨"1079114", "GREENLIGHT CAPITAL INC"⟩),
  ("greenlight capital", ⟨"1079114", "GREENLIGHT CAPITAL INC"⟩),
  ("paulson", ⟨"1035674", "PAULSON & CO. INC."⟩),
  ("paulson & co", ⟨"1035674", "PAULSON & CO. INC."⟩)]

/-- Keyed object access KNOWN_13F_FILERS[key]. -/
def knownFiler (key : String) : Option KnownFiler :=
  (KNOWN_13F_FILERS.find? (fun p => p.1 = key)).map (·.2)

/-! ## searchCompanyByName -/

/-- Split a character list at whitespace runs into maximal non-whitespace
words (fuelled by the list length). -/
def wordsOf : Nat → List Char → List (List Char)
  | 0, _ => []
  | _ + 1, [] => []
  | fuel + 1, c :: cs =>
    if c.isWhitespace then wordsOf fuel cs
    else
      let w := (c :: cs).takeWhile (fun x => !x.isWhitespace)
      w :: wordsOf fuel ((c :: cs).drop w.length)

/-- searchTerm.split(/\s+/) on an already-trimmed string: the whitespace-
delimited words. -/
def splitWords (s : String) : List String :=
  ((wordsOf s.data.length s.data).map String.mk).filter (· ≠ "")

/-- Array.prototype.join(" "). -/
def joinSpace : List String → String
  | [] => ""
  | [x] => x
  | x :: xs => x ++ " " ++ joinSpace xs

/-- The progressively-shorter-prefix retry loop of step 1: for len from
words.length down to 1, look up words.slice(0, len).join(" "). -/
def knownFilerLoop (words : List String) : Nat → Option KnownFiler
  | 0 => none
  | n + 1 =>
    match knownFiler (joinSpace (words.take (n + 1))) with
    | some k => some k
    | none => knownFilerLoop words n

/-- Step 1 of searchCompanyByName: the curated-override lookup, attempted
only for a 13F-HR or unspecified form type; exact match first, then the
trailing-word-dropping retry loop.  Purely a function of the search term
and the form type: no environment access. -/
def overrideLookup (searchTerm : String) (formType : Option FormType) :
    Option KnownFiler :=
  if formType = some .thirteenF || formType = none then
    match knownFiler searchTerm with
    | some k => some k
    | none => knownFilerLoop (splitWords searchTerm) (splitWords searchTerm).length
  else none

/-- The body of the step-2 scan loop over directory entries: threads the
running best match and best score, stopping with an Infinity score on exact
case-insensitive title equality.  The Bool in the result marks the
Infinity (break) case. -/
def fuzzyScan (searchTerm : String) :
    List CompanyTickerRecord → Option CompanyTickerRecord → Nat →
    Option CompanyTickerRecord × Nat × Bool
  | [], best, score => (best, score, false)
  | e :: rest, best, score =>
    let title := jsToLower e.title
    if title = searchTerm then (some e, score, true)
    else
      let p1 := strIncludes title searchTerm && searchTerm.length > score
      let best1 := if p1 then some e else best
      let score1 := if p1 then searchTerm.length else score
      let p2 := strIncludes searchTerm title && title.length > score1
      let best2 := if p2 then some e else best1
      let score2 := if p2 then title.length else score1
      fuzzyScan searchTerm rest best2 score2

/-- Step 2 of searchCompanyByName: the directory fuzzy-title match.  Returns
the best entry when it exists and its score reaches the acceptance
threshold (an exact-equality break counts as Infinity, which always
passes). -/
def directoryMatch (searchTerm : String) (entries : List CompanyTickerRecord) :
    Option CompanyTickerRecord :=
  match fuzzyScan searchTerm entries none 0 with
  | (bestMatch, bestScore, isInf) =>
    match bestMatch with
    | some e => if isInf || bestScore ≥ 3 then some e else none
    | none => none

/-- Step 3 of searchCompanyByName: the EDGAR CGI company search.  The Atom
fetch and its two regex extractions are summarized by env.cgi; when a form
type was requested the candidate is validated against its submission
history (fetched through the same submissions endpoint), and a validation
fetch failure falls back to accepting the unverified candidate. -/
def cgiSearch (name : String) (formType : Option FormType) (env : Env) :
    Option (String × String) :=
  match env.cgi with
  | .error _ => none
  | .ok info =>
    match info.cikDigits with
    | none => none
    | some cgiCik =>
      let cgiName := (jsOrStr info.conformedName (some name)).getD name
      match formType with
      | some ft =>
        match env.submissionsAt (padStartZeros cgiCik 10) with
        | .error _ => some (cgiCik, cgiName)
        | .ok subs =>
          let forms := ((subs.filings.map (·.form)).join).getD []
          if forms.any (fun f => jsStartsWith f ft.str) then some (cgiCik, cgiName)
          else none
      | none => some (cgiCik, cgiName)

/-- searchCompanyByName: the three-step name-resolution pipeline.  Network
failures inside steps 2 and 3 are swallowed (the source wraps each in
try/catch), so the function never fails, it only returns null. -/
def searchCompanyByName (name : String) (formType : Option FormType)
    (env : Env) : Option (String × String) :=
  let searchTerm := jsTrim (jsToLower name)
  if searchTerm = "" || searchTerm.length < 2 then none
  else
    match overrideLookup searchTerm formType with
    | some k => some (k.cik, k.name)
    | none =>
      let step2 :=
        match env.directory with
        | .error _ => none
        | .ok dir =>
          (directoryMatch searchTerm dir).map fun best =>
            (toString best.cik_str, best.title)
      match step2 with
      | some r => some r
      | none => cgiSearch name formType env

/-! ## resolveCompany and fetchCompanySubmissions -/

/-- Directory lookup directory[ticker.toUpperCase()]: the in-memory map is
keyed by uppercased ticker, so the lookup scans for a record whose
uppercased ticker equals the uppercased query. -/
def dirLookup (dir : List CompanyTickerRecord) (ticker : String) :
    Option CompanyTickerRecord :=
  dir.find? (fun r => jsToUpper r.ticker = jsToUpper ticker)

/-- resolveCompany: direct CIK (leading zeros stripped) wins; then the
ticker-directory exact lookup (a directory load failure propagates); then
the name-search pipeline (called without a form type); otherwise a
resolution failure naming the original query. -/
def resolveCompany (ticker rawCik companyName : Option String) (env : Env) :
    Except SecError Company :=
  if truthyStr rawCik then
    .ok ⟨dropLeadingZeros (rawCik.getD ""), ticker.map jsToUpper, none⟩
  else
    let tickerStep : Except SecError (Option Company) :=
      if truthyStr ticker then
        match env.directory with
        | .error _ => .error .fetchFailure
        | .ok dir =>
          match dirLookup dir (ticker.getD "") with
          | some m =>
            .ok (some ⟨toString m.cik_str, some (jsToUpper m.ticker), some m.title⟩)
          | none => .ok none
      else .ok none
    match tickerStep with
    | .error e => .error e
    | .ok (some c) => .ok c
    | .ok none =>
      if truthyStr companyName || truthyStr ticker then
        match searchCompanyByName
            ((jsOrStr companyName (jsOrStr ticker (some ""))).getD "")
            none env with
        | some (cik, foundName) =>
          .ok ⟨cik, ticker.map jsToUpper, some foundName⟩
        | none =>
          .error (.resolutionFailure
            ("Unable to resolve \"" ++
              ((jsOrStr companyName ticker).getD "undefined") ++
              "\" to a CIK. Provide a valid ticker, CIK, or company name."))
      else
        .error (.resolutionFailure
          ("Unable to resolve \"" ++
            ((jsOrStr companyName ticker).getD "undefined") ++
            "\" to a CIK. Provide a valid ticker, CIK, or company name."))

/-- fetchCompanySubmissions: fetch the submissions document for a CIK,
zero-padded to ten digits in the URL. -/
def fetchCompanySubmissions (cik : String) (env : Env) : Except Unit Subs :=
  env.submissionsAt (padStartZeros cik 10)

/-! ## selectFiling and buildArchiveBase -/

/-- filings.form.map((form, idx) => ...): assemble per-index entries.
Ragged sibling arrays yield undefined in JavaScript, which behaves exactly
like "" in every later comparison; the optional reportDate is kept
faithfully optional. -/
def mkEntries (f : RecentFilings) (forms : List String) : List SecFilingEntry :=
  (List.range forms.length).map fun i =>
    { form := (forms[i]?).getD ""
      accessionNumber := (f.accessionNumber[i]?).getD ""
      filingDate := (f.filingDate[i]?).getD ""
      reportDate := f.reportDate[i]?
      primaryDocument := (f.primaryDocument[i]?).getD "" }

/-- Number(s?.slice(0, 4)): the year field of an ISO date string, NaN when
the string is missing. -/
def yearNum (s : Option String) : JNum :=
  match s with
  | none => .nan
  | some d => jsNumber (.str (strTake d 4))

/-- The per-entry filter of selectFiling: the form must be among the target
forms; a truthy normalized date must equal the entry's filing date; a
truthy filing year must equal the filing-date year or the report-date
year. -/
def entryFilter (targetForms : List String) (normalizedDate : Option String)
    (filingYear : Option Int) (e : SecFilingEntry) : Bool :=
  if ¬ targetForms.contains e.form then false
  else if truthyStr normalizedDate && e.filingDate ≠ normalizedDate.getD "" then
    false
  else if truthyInt filingYear then
    let year := yearNum (some e.filingDate)
    let reportYear := yearNum e.reportDate
    if year ≠ .num ((filingYear.getD 0 : Int) : ℚ) &&
       reportYear ≠ .num ((filingYear.getD 0 : Int) : ℚ) then false
    else true
  else true

/-- selectFiling: pick the first submission entry matching the form-type,
date and year filters; null when the history or its form list is absent. -/
def selectFiling (submissions : Option Subs) (formType : FormType)
    (filingDate : Option String) (filingYear : Option Int) :
    Option SecFilingEntry :=
  match submissions.bind (·.filings) with
  | none => none
  | some filings =>
    match filings.form with
    | none => none
    | some forms =>
      let targetForms :=
        match formType with
        | .thirteenF => ["13F-HR", "13F-HR/A"]
        | .tenK => ["10-K"]
      let entries := mkEntries filings forms
      let normalizedDate := filingDate.map (strTake · 10)
      entries.find? (entryFilter targetForms normalizedDate filingYear)

/-- buildArchiveBase: the archive base path and the cache key, both built
from the dash-stripped accession number and the CIK normalized through
String(Number(cik)). -/
def buildArchiveBase (cik accessionNumber : String) : String × String :=
  let accessionPlain := stripDashes accessionNumber
  let cikNoLeading := strNumber cik
  ("https://www.sec.gov/Archives/edgar/data/" ++ cikNoLeading ++ "/" ++
     accessionPlain,
   cikNoLeading ++ "-" ++ accessionPlain)

/-! ## stripHtml -/

/-- Case-insensitive prefix test on character lists. -/
def ciPrefix (pat : List Char) (s : List Char) : Bool :=
  (pat.map Char.toLower).isPrefixOf (s.map Char.toLower)

/-- First index at which pat occurs case-insensitively in s. -/
def findCI (pat : List Char) : List Char → Option Nat
  | [] => if pat.isEmpty then some 0 else none
  | x :: xs =>
    if ciPrefix pat (x :: xs) then some 0
    else (findCI pat xs).map (· + 1)

/-- One global-regex pass replacing every lazy open...close block (e.g.
script or style elements, matched case-insensitively) by a single space.
An opener with no closer after it never matches, exactly as the lazy
regex never matches there. -/
def removeBlocks (openP closeP : List Char) : Nat → List Char → List Char
  | 0, s => s
  | fuel + 1, s =>
    match findCI openP s with
    | none => s
    | some i =>
      match findCI closeP (s.drop (i + openP.length)) with
      | none => s
      | some j =>
        s.take i ++ ' ' ::
          removeBlocks openP closeP fuel
            (s.drop (i + openP.length + j + closeP.length))

/-- The /<[^>]+>/g pass: every maximal <...> span with at least one
character between the brackets becomes a single space; a lone opener with
no closer, or an immediately-closed pair, stays as-is. -/
def stripTags : Nat → List Char → List Char
  | 0, s => s
  | _ + 1, [] => []
  | fuel + 1, '<' :: xs =>
    let inner := xs.takeWhile (· ≠ '>')
    if inner.length < xs.length && inner.length ≥ 1 then
      ' ' :: stripTags fuel (xs.drop (inner.length + 1))
    else '<' :: stripTags fuel xs
  | fuel + 1, c :: xs => c :: stripTags fuel xs

/-- The /\s+/g → " " pass: every maximal whitespace run becomes one space. -/
def collapseWs : Nat → List Char → List Char
  | 0, s => s
  | _ + 1, [] => []
  | fuel + 1, c :: xs =>
    if c.isWhitespace then
      ' ' :: collapseWs fuel ((c :: xs).dropWhile Char.isWhitespace)
    else c :: collapseWs fuel xs

/-- stripHtml: remove script and style blocks, flatten the remaining tags,
collapse whitespace runs, and trim. -/
def stripHtml (html : String) : String :=
  let s0 := html.data
  let s1 := removeBlocks "<script".data "</script>".data s0.length s0
  let s2 := removeBlocks "<style".data "</style>".data s1.length s1
  let s3 := stripTags s2.length s2
  jsTrim (String.mk (collapseWs s3.length s3))

/-! ## extractSections -/

/-- One token of the hand-rolled patterns used by SECTION_PATTERNS: a
literal character, one-or-more whitespace, or zero-or-more whitespace. -/
inductive RTok where
  | lit : Char → RTok
  | ws1 : RTok
  | ws0 : RTok
deriving Repr, DecidableEq

/-- Match a token sequence at the head of a character list, returning the
number of characters consumed.  The whitespace tokens are greedy, which is
exact for these patterns because each is followed by a non-whitespace
literal. -/
def matchToks : List RTok → List Char → Option Nat
  | [], _ => some 0
  | .lit c :: ts, x :: xs =>
    if x = c then (matchToks ts xs).map (· + 1) else none
  | .lit _ :: _, [] => none
  | .ws1 :: ts, xs =>
    let n := (xs.takeWhile Char.isWhitespace).length
    if n = 0 then none else (matchToks ts (xs.drop n)).map (· + n)
  | .ws0 :: ts, xs =>
    let n := (xs.takeWhile Char.isWhitespace).length
    (matchToks ts (xs.drop n)).map (· + n)

/-- Try the alternatives of a pattern, in order, at the head of a list. -/
def matchAlts (alts : List (List RTok)) (s : List Char) : Option Nat :=
  match alts with
  | [] => none
  | a :: rest =>
    match matchToks a s with
    | some n => some n
    | none => matchAlts rest s

/-- Leftmost match of a pattern in a list: index and matched length, as
String.prototype.match reports them. -/
def firstMatch (alts : List (List RTok)) : List Char → Option (Nat × Nat)
  | [] => (matchAlts alts []).map fun n => (0, n)
  | x :: xs =>
    match matchAlts alts (x :: xs) with
    | some n => some (0, n)
    | none => (firstMatch alts xs).map fun p => (p.1 + 1, p.2)

/-- Lift a plain string to a literal token sequence. -/
def litToks (s : String) : List RTok := s.data.map RTok.lit

/-- One SECTION_PATTERNS entry: key, start pattern, optional next pattern
(each pattern a list of regex alternatives). -/
structure SectionPattern where
  key : String
  pat : List (List RTok)
  next : Option (List (List RTok))

/-- SECTION_PATTERNS: the five fixed 10-K section definitions, with their
start and next markers transcribed token-for-token from the source
regexes. -/
def SECTION_PATTERNS : List SectionPattern := [
  { key := "business_overview"
    pat := [litToks "item" ++ [.ws1] ++ litToks "1." ++ [.ws0] ++ litToks "business"]
    next := some [litToks "item" ++ [.ws1] ++ litToks "1a."] },
  { key := "risk_factors"
    pat := [litToks "item" ++ [.ws1] ++ litToks "1a."]
    next := some [litToks "item" ++ [.ws1] ++ litToks "1b.",
                  litToks "item" ++ [.ws1] ++ litToks "2."] },
  { key := "mdna"
    pat := [litToks "item" ++ [.ws1] ++ litToks "7."]
    next := some [litToks "item" ++ [.ws1] ++ litToks "7a."] },
  { key := "liquidity_and_market_risk"
    pat := [litToks "item" ++ [.ws1] ++ litToks "7a."]
    next := some [litToks "item" ++ [.ws1] ++ litToks "8."] },
  { key := "financial_statements"
    pat := [litToks "item" ++ [.ws1] ++ litToks "8."]
    next := some [litToks "item" ++ [.ws1] ++ litToks "9."] }]

/-- The /\s{3,}/g → " " pass inside an extracted snippet: only whitespace
runs of three or more characters collapse. -/
def collapseLongWs : Nat → List Char → List Char
  | 0, s => s
  | _ + 1, [] => []
  | fuel + 1, c :: xs =>
    if c.isWhitespace then
      let run := ((c :: xs).takeWhile Char.isWhitespace)
      if run.length ≥ 3 then
        ' ' :: collapseLongWs fuel ((c :: xs).drop run.length)
      else
        run ++ collapseLongWs fuel ((c :: xs).drop run.length)
    else c :: collapseLongWs fuel xs

/-- extractSections: locate each section's start marker in the lowercased
text, cut at the first later occurrence of its next marker (or the end of
the document), collapse long whitespace runs, and trim; absent sections
are simply omitted. -/
def extractSections (text : String) : List (String × String) :=
  let lower := (jsToLower text).data
  SECTION_PATTERNS.foldl
    (fun sections section_ =>
      match firstMatch section_.pat lower with
      | none => sections
      | some (start, mlen) =>
        let endPos :=
          match section_.next with
          | none => text.length
          | some np =>
            match firstMatch np (lower.drop (start + mlen)) with
            | some (j, _) => start + mlen + j
            | none => text.length
        let snippet := (text.data.take endPos).drop start
        let snippet := String.mk (collapseLongWs snippet.length snippet)
        sections ++ [(section_.key, jsTrim snippet)])
    []

/-! ## parseInformationTable -/

/-- Normalize one voting-authority sub-field:
Number(a ?? b ?? 0) || undefined. -/
def votingField (a b : JVal) : Option ℚ :=
  jsNumOrUndef (jsNumber (jsNullish a (jsNullish b (.num 0))))

/-- Map one non-null raw row to a holding record (the body of the .map in
parseInformationTable). -/
def mapRow (row : InfoRow) : HoldingRecord :=
  let shares :=
    jsOrNum (jsNumber ((row.shrsOrPrnAmt.map (·.sshPrnamt)).getD .undef))
            (jsNumber ((row.shrsOrPrnAmt.map (·.sshprnamt)).getD .undef))
  let voting := row.votingAuthority <|> row.votingauthority
  { nameOfIssuer := jsOrStr row.nameOfIssuer row.nameofIssuer
    titleOfClass := row.titleOfClass
    cusip := row.cusip
    value := jsNumber row.value
    shares := match shares with
      | .num q => some q
      | .nan => none
    shareType := (row.shrsOrPrnAmt.map (·.sshPrnamtType)).getD none
    investmentDiscretion := row.investmentDiscretion
    putCall := jsOrStr row.putCall row.putcall
    otherManager := row.otherManager
    votingAuthority := voting.map fun v =>
      { sole := votingField v.Sole v.sole
        shared := votingField v.Shared v.shared
        noneV := votingField v.None v.noneV } }

/-- parseInformationTable, applied to the value located by the
informationTable/infoTable chain (the XML parse itself is external
library code, summarized by the environment).  A falsy table yields [];
a non-array table is wrapped in a singleton; null rows are dropped. -/
def parseInformationTable (table : Option JsTableVal) : List HoldingRecord :=
  match table with
  | none => []
  | some (.obj r) => [mapRow r]
  | some (.arr rows) => rows.filterMap (fun r => r.map mapRow)

/-! ## Information-table file selection and the holdings sort -/

/-- Number(size || 0) for an index item's size field. -/
def sizeNum (i : IndexItem) : JNum :=
  match i.size with
  | none => .num 0
  | some s => if s = "" then .num 0 else jsNumber (.str s)

/-- Numeric ordering key used for the largest-file fallback; NaN compares
as if 0 stayed NaN through the subtraction comparator, but a NaN
comparator result leaves order unchanged, which the running-maximum fold
below reproduces by never replacing on a non-greater comparison. -/
def sizeKey (i : IndexItem) : ℚ :=
  match sizeNum i with
  | .nan => 0
  | .num q => q

/-- Head of the stable descending sort by size: the first item attaining
the maximal size. -/
def maxBySize (items : List IndexItem) : Option IndexItem :=
  items.foldl
    (fun best i =>
      match best with
      | none => some i
      | some b => if sizeKey i > sizeKey b then some i else some b)
    none

/-- The information-table file selection: an infotable-named file, else a
13F-named non-primary XML, else the largest non-primary non-index XML. -/
def pickInfoItem (items : List IndexItem) (primaryDocument : String) :
    Option IndexItem :=
  match items.find? (fun i =>
      strIncludes (jsToLower i.name) "infotable" ||
      strIncludes (jsToLower i.name) "informationtable") with
  | some i => some i
  | none =>
    match items.find? (fun i =>
        strIncludes (jsToLower i.name) "13f" && jsEndsWith i.name ".xml" &&
        i.name ≠ primaryDocument) with
    | some i => some i
    | none =>
      maxBySize (items.filter (fun i =>
        jsEndsWith i.name ".xml" && i.name ≠ primaryDocument &&
        !(strIncludes i.name "-index")))

/-- row.value || 0: the sort and totalling key of a holding. -/
def valueOrZero (h : HoldingRecord) : ℚ :=
  match h.value with
  | .nan => 0
  | .num q => q

/-- Insert a holding after every already-placed holding of greater-or-equal
key: the insertion step of a stable descending sort. -/
def insertDesc (a : HoldingRecord) : List HoldingRecord → List HoldingRecord
  | [] => [a]
  | b :: bs =>
    if valueOrZero b ≥ valueOrZero a then b :: insertDesc a bs
    else a :: b :: bs

/-- holdings.sort((a, b) => (b.value || 0) - (a.value || 0)): a stable
descending sort by value (Array.prototype.sort is stable). -/
def jsSortDesc (l : List HoldingRecord) : List HoldingRecord :=
  l.foldl (fun acc a => insertDesc a acc) []

/-! ## Filing cache -/

/-- CACHE_ROOT relative to the process working directory. -/
def CACHE_ROOT : String := ".local-data/sec-filings"

/-- The on-disk path of a cache key. -/
def cachePathFor (cacheKey : String) : String :=
  CACHE_ROOT ++ "/" ++ cacheKey ++ ".json"

/-- readCache: absent unless self-hosted; a corrupt file (already folded
into the environment's Option) is a miss. -/
def readCache (cacheKey : String) (env : Env) :
    Option (StoredSummary × String) :=
  if env.selfHosted then
    (env.cacheFile cacheKey).map fun d => (d, cachePathFor cacheKey)
  else none

/-- The cache-hit branch of fetchSecFilingSummary: filter the stored
sections down to a truthy includeSections list, mark the metadata cached,
and re-slice stored holdings to the caller's limit (full length for a
narrative filing). -/
def serveFromCache (stored : StoredSummary) (filePath : String)
    (includeSections : Option (List String)) (formType : FormType)
    (limitHoldings : Int) : SecFilingSummary :=
  let summary := stored.summary
  let sections :=
    if truthyLen includeSections then
      summary.sections.filter fun kv => (includeSections.getD []).contains kv.1
    else summary.sections
  { summary with
    sections := sections
    metadata := { summary.metadata with
      cached := true
      cachePath := some filePath }
    holdings := summary.holdings.map fun hs =>
      jsSliceTo hs
        (if formType = .thirteenF then limitHoldings else (hs.length : Int)) }

/-! ## Summary assembler -/

/-- Number((q).toFixed(2)): round to two decimal places. -/
def round2 (q : ℚ) : ℚ := ((round (q * 100) : ℤ) : ℚ) / 100

/-- Array.prototype.join(", "). -/
def joinComma : List String → String
  | [] => ""
  | [x] => x
  | x :: xs => x ++ ", " ++ joinComma xs

/-- The message thrown when no filing matches: names the entity (company
name and ticker when truthy, always the CIK), the requested form type, and
the filing year when truthy. -/
def noFilingMessage (company : Company) (formType : FormType)
    (filingYear : Option Int) : String :=
  let parts :=
    (if truthyStr company.companyName then [company.companyName.getD ""] else []) ++
    (if truthyStr company.ticker then ["ticker " ++ company.ticker.getD ""] else []) ++
    ["CIK " ++ company.cik]
  let identifier := joinComma parts
  let yearNote :=
    if truthyInt filingYear then " for year " ++ toString (filingYear.getD 0)
    else ""
  "No " ++ formType.str ++ " filing found for " ++ identifier ++ yearNote ++
    ". This entity (CIK " ++ company.cik ++ ") may not file " ++
    formType.str ++ " forms. Do NOT retry with the same entity — try a " ++
    "different company name, ticker, or CIK."

/-- The try/catch-guarded 13F holdings sub-path: fetch the file index,
select the information-table file, fetch and parse it, compute stats from
the full parsed list, then sort descending and truncate when the limit is
positive.  Any thrown failure degrades to absent holdings, keeping
whatever informationTableUrl had been assigned before the throw. -/
def tabularSubpath (env : Env) (basePath primaryDocument : String)
    (limitHoldings : Int) :
    Option (List HoldingRecord) × Option HoldingsStats × Option String :=
  match env.fetchIndex (basePath ++ "/index.json") with
  | .error _ => (none, none, none)
  | .ok indexJson =>
    let items := ((indexJson.directory.map (·.item)).join).getD []
    match pickInfoItem items primaryDocument with
    | none => (none, none, none)
    | some infoItem =>
      let informationTableUrl := basePath ++ "/" ++ infoItem.name
      match env.locatedTable informationTableUrl with
      | .error _ => (none, none, some informationTableUrl)
      | .ok table =>
        let holdings := parseInformationTable table
        let holdingsStats :=
          if holdings.length ≠ 0 then
            let totalValue := holdings.foldl (fun acc row => acc + valueOrZero row) 0
            some (HoldingsStats.mk holdings.length (round2 (totalValue / 1000)))
          else none
        let holdings' :=
          if limitHoldings > 0 then jsSliceTo (jsSortDesc holdings) limitHoldings
          else holdings
        (some holdings', holdingsStats, some informationTableUrl)

/-- The observable result of fetchSecFilingSummary: the returned summary
plus the cache write it performed (key and payload), if any. -/
structure FetchOutcome where
  summary : SecFilingSummary
  cacheWrite : Option (String × StoredSummary)
deriving Repr, DecidableEq

/-- fetchSecFilingSummary: resolve the entity, fetch its submission
history, select the filing, then serve from cache or fetch and extract,
persisting the freshly built summary (with cached marked true and a
fetchedAt stamp) when self-hosted. -/
def fetchSecFilingSummary (o : SecFilingRequest) (env : Env) :
    Except SecError FetchOutcome :=
  let formType := o.formType.getD .tenK
  let limitHoldings := o.limitHoldings.getD 25
  match resolveCompany o.ticker o.cik o.companyName env with
  | .error e => .error e
  | .ok company =>
    match fetchCompanySubmissions company.cik env with
    | .error _ => .error .fetchFailure
    | .ok submissions =>
      match selectFiling (some submissions) formType o.filingDate o.filingYear with
      | none =>
        .error (.noFilingFound (noFilingMessage company formType o.filingYear))
      | some filing =>
        let (basePath, cacheKey) :=
          buildArchiveBase company.cik filing.accessionNumber
        match readCache cacheKey env with
        | some (stored, filePath) =>
          .ok ⟨serveFromCache stored filePath o.includeSections formType
                 limitHoldings, none⟩
        | none =>
          let primaryDocUrl := basePath ++ "/" ++ filing.primaryDocument
          match env.fetchDoc primaryDocUrl with
          | .error _ => .error .fetchFailure
          | .ok body =>
            let primaryText := stripHtml body
            let sections :=
              if formType = .tenK then extractSections primaryText else []
            let (holdings, holdingsStats, informationTableUrl) :=
              if formType = .thirteenF then
                tabularSubpath env basePath filing.primaryDocument limitHoldings
              else (none, none, none)
            let summary : SecFilingSummary :=
              { metadata :=
                  { companyName :=
                      (jsOrStr submissions.name
                        (jsOrStr company.companyName (some "Unknown"))).getD
                        "Unknown"
                    ticker := company.ticker
                    cik := company.cik
                    formType := formType
                    accessionNumber := filing.accessionNumber
                    filingDate := filing.filingDate
                    reportDate := filing.reportDate
                    primaryDocumentUrl := primaryDocUrl
                    informationTableUrl := informationTableUrl
                    cached := false
                    cachePath := none }
                sections :=
                  if truthyLen o.includeSections then
                    sections.filter fun kv =>
                      (o.includeSections.getD []).contains kv.1
                  else sections
                holdings := holdings
                holdingsStats := holdingsStats }
            let cachePayload : StoredSummary :=
              ⟨{ summary with
                  metadata := { summary.metadata with cached := true } },
                env.nowIso⟩
            .ok ⟨summary,
                 if env.selfHosted then some (cacheKey, cachePayload) else none⟩

/-! ## Rate-limited fetcher (secFetch gate) -/

/-- The minimum spacing between outbound dispatches. -/
def minDelay : Int := 150

/-- Where one secFetch caller stands relative to the gate: about to run the
elapsed-time check, suspended until a wake time, or dispatched at a time. -/
inductive GatePC where
  | ready : GatePC
  | waiting : Int → GatePC
  | dispatched : Int → GatePC
deriving Repr, DecidableEq

/-- Global state of the gate with two concurrent callers: the wall clock,
the shared lastRequestTime, and each caller's position. -/
structure GateState where
  time : Int
  last : Int
  p1 : GatePC
  p2 : GatePC
deriving Repr, DecidableEq

/-- One caller's synchronous slice of secFetch, from the Date.now() read up
to the next suspension point: with the minimum already satisfied it
updates lastRequestTime and dispatches atomically (no await separates the
check from the write); otherwise it computes its wake time from the shared
lastRequestTime and suspends. -/
def gateEnter (time last : Int) : GatePC × Option Int :=
  if time - last < minDelay then
    (.waiting (time + (minDelay - (time - last))), none)
  else (.dispatched time, some time)

/-- A suspended caller that has reached its wake time resumes, writes
lastRequestTime, and dispatches. -/
def gateResume (time : Int) : GatePC × Option Int := (.dispatched time, some time)

/-- Interleaving semantics of the gate under two concurrent callers: the
clock may advance, and whichever caller is runnable may take its next
synchronous slice. -/
inductive GateStep : GateState → GateState → Prop where
  | tick (s : GateState) (t : Int) : s.time ≤ t →
      GateStep s { s with time := t }
  | run1 (s : GateState) : s.p1 = .ready →
      GateStep s
        { s with
          p1 := (gateEnter s.time s.last).1
          last := ((gateEnter s.time s.last).2).getD s.last }
  | run2 (s : GateState) : s.p2 = .ready →
      GateStep s
        { s with
          p2 := (gateEnter s.time s.last).1
          last := ((gateEnter s.time s.last).2).getD s.last }
  | wake1 (s : GateState) (w : Int) : s.p1 = .waiting w → w ≤ s.time →
      GateStep s { s with p1 := .dispatched s.time, last := s.time }
  | wake2 (s : GateState) (w : Int) : s.p2 = .waiting w → w ≤ s.time →
      GateStep s { s with p2 := .dispatched s.time, last := s.time }

/-- Reachability under the gate semantics. -/
def GateReach := Relation.ReflTransGen GateStep

/-- Dispatch time of a sequential secFetch call that finds lastRequestTime
equal to last and the clock at now: dispatch immediately when the minimum
has elapsed, otherwise sleep exactly the shortfall (timers fire no earlier
than requested; the earliest resume is modelled). -/
def gateDispatch (last now : Int) : Int :=
  if now - last < minDelay then now + (minDelay - (now - last)) else now

/-! ## Claim-side specification predicate for filing selection -/

/-- The selection filter as the specification words it, for comparison with
the implementation's entryFilter: form family match (13F-HR also accepts
13F-HR/A), exact date-portion equality for a NON-EMPTY date filter, and
filing-year-or-report-year equality for a NONZERO year filter. -/
def claimFilter (formType : FormType) (filingDate : Option String)
    (filingYear : Option Int) (e : SecFilingEntry) : Bool :=
  (match formType with
   | .thirteenF => e.form == "13F-HR" || e.form == "13F-HR/A"
   | .tenK => e.form == "10-K") &&
  (match filingDate with
   | some d => if d ≠ "" then e.filingDate == strTake d 10 else true
   | none => true) &&
  (match filingYear with
   | some y =>
     if y ≠ 0 then
       yearNum (some e.filingDate) == .num (y : ℚ) ||
         yearNum e.reportDate == .num (y : ℚ)
     else true
   | none => true)

/-! ## Concrete fixtures -/

/-- A base environment: self-hosted, with every external effect failing or
empty. -/
def envBase : Env :=
  { selfHosted := true
    nowIso := "2026-01-01T00:00:00.000Z"
    directory := .ok []
    cgi := .error ()
    submissionsAt := fun _ => .error ()
    cacheFile := fun _ => none
    fetchDoc := fun _ => .error ()
    fetchIndex := fun _ => .error ()
    locatedTable := fun _ => .error () }

/-- Submission history fixture for a 13F filer. -/
def subs13F : Subs :=
  ⟨some "BERKSHIRE HATHAWAY INC",
   some ⟨some ["13F-HR"], ["0000950123-25-000001"], ["2025-02-14"],
         ["2024-12-31"], ["primary.xml"]⟩⟩

/-- Three raw information-table rows with values 5, 50 and 10. -/
def row5 : InfoRow := { nameOfIssuer := some "ALPHA CORP", value := .num 5 }

/-- Second fixture row. -/
def row50 : InfoRow := { nameOfIssuer := some "BETA CORP", value := .num 50 }

/-- Third fixture row. -/
def row10 : InfoRow := { nameOfIssuer := some "GAMMA CORP", value := .num 10 }

/-- Archive base path of the 13F fixture filing. -/
def base13F : String :=
  "https://www.sec.gov/Archives/edgar/data/1067983/000095012325000001"

/-- Environment serving the 13F fixture end to end. -/
def env13F : Env :=
  { envBase with
    submissionsAt := fun u => if u = "0001067983" then .ok subs13F else .error ()
    fetchDoc := fun u =>
      if u = base13F ++ "/primary.xml" then .ok "thirteen f cover"
      else .error ()
    fetchIndex := fun u =>
      if u = base13F ++ "/index.json" then
        .ok ⟨some ⟨some [⟨"infotable.xml", some "4000"⟩]⟩⟩
      else .error ()
    locatedTable := fun u =>
      if u = base13F ++ "/infotable.xml" then
        .ok (some (.arr [some row5, some row50, some row10]))
      else .error () }

/-- A 13F request against the fixture entity with a chosen holdings limit. -/
def req13F (limit : Int) : SecFilingRequest :=
  { cik := some "1067983", formType := some .thirteenF,
    limitHoldings := some limit }

/-- A 10-K primary document containing all five item markers. -/
def primary10K : String :=
  "Item 1. Business alpha overview here. Item 1A. Risk Factors beta risks " ++
  "here. Item 1B. Unresolved comments. Item 2. Properties. Item 7. " ++
  "Management discussion delta. Item 7A. Market risk epsilon. Item 8. " ++
  "Financial statements zeta. Item 9. Changes."

/-- Archive base path of the 10-K fixture filing. -/
def base10K : String :=
  "https://www.sec.gov/Archives/edgar/data/320193/000032019324000123"

/-- Submission history fixture for the 10-K filer. -/
def subs10K : Subs :=
  ⟨some "Apple Inc.",
   some ⟨some ["10-K"], ["0000320193-24-000123"], ["2024-11-01"],
         ["2024-09-28"], ["aapl-10k.htm"]⟩⟩

/-- Environment serving the 10-K fixture. -/
def env10K : Env :=
  { envBase with
    submissionsAt := fun u => if u = "0000320193" then .ok subs10K else .error ()
    fetchDoc := fun u =>
      if u = base10K ++ "/aapl-10k.htm" then .ok primary10K else .error () }

/-- The 10-K fixture request (formType defaults to 10-K), requesting all
sections. -/
def req10K : SecFilingRequest := { cik := some "320193" }

/-- The cache payload written by the fresh 10-K fixture request. -/
def payload10K : Option StoredSummary :=
  match fetchSecFilingSummary req10K env10K with
  | .ok o => o.cacheWrite.map (·.2)
  | .error _ => none

/-- The 10-K fixture environment after that write landed in the cache. -/
def env10KHit : Env :=
  { env10K with
    cacheFile := fun k =>
      if k = "320193-000032019324000123" then payload10K else none }

/-- A re-read of the same filing requesting only the risk_factors
section. -/
def req10KRead : SecFilingRequest :=
  { cik := some "320193", includeSections := some ["risk_factors"] }

/-- Submission history fixture for the selection counterexample. -/
def subsC3 : Subs :=
  ⟨some "ACME",
   some ⟨some ["10-K"], ["acc1"], ["2023-01-05"], ["2022-12-31"], ["doc.htm"]⟩⟩

/-- The single entry of subsC3 after per-index assembly. -/
def entryC3 : SecFilingEntry :=
  ⟨"acc1", "2023-01-05", some "2022-12-31", "10-K", "doc.htm"⟩

/-- Directory fixture entries for the fuzzy-match claims. -/
def blkRec : CompanyTickerRecord := ⟨1364742, "BLK", "BlackRock Inc."⟩

/-- A directory entry whose title is exactly the two-letter query. -/
def aiRec : CompanyTickerRecord := ⟨9999, "AI", "AI"⟩

/-- A directory entry containing the two-letter query as a substring. -/
def nvdaRec : CompanyTickerRecord := ⟨2222, "NVDA", "NVIDIA Corp"⟩

/-- Tie-breaking fixtures: two titles both containing the query. -/
def tieA : CompanyTickerRecord := ⟨1, "AAA", "blackrock alpha"⟩

/-- Second tie-breaking fixture. -/
def tieB : CompanyTickerRecord := ⟨2, "BBB", "blackrock beta"⟩

/-- Gate-trace fixture: both callers about to enter at time 0 with the last
dispatch recorded at time 0. -/
def gInit : GateState := ⟨0, 0, .ready, .ready⟩

/-- Gate-trace fixture: the state after both callers suspended and then
dispatched at time 150. -/
def gFinal : GateState := ⟨150, 150, .dispatched 150, .dispatched 150⟩

/-- A small stored cache entry used to exercise the cache-hit narrowing. -/
def storedFix : StoredSummary :=
  ⟨{ metadata :=
      { companyName := "ACME", ticker := none, cik := "7",
        formType := .thirteenF, accessionNumber := "a",
        filingDate := "2025-01-01", reportDate := none,
        primaryDocumentUrl := "u", informationTableUrl := none,
        cached := true, cachePath := none }
     sections := [("risk_factors", "r"), ("mdna", "m")]
     holdings := some []
     holdingsStats := none },
   "2026-01-01T00:00:00.000Z"⟩

/-! ## Helper lemmas -/

/-- subList decides list containment (the infix relation). -/
theorem subList_infix_iff {α : Type} [DecidableEq α] (s l : List α) :
    subList s l = true ↔ s <:+: l := by
  induction l with
  | nil => simp [subList, List.isEmpty_iff, List.infix_nil]
  | cons x xs ih =>
    simp [subList, List.isPrefixOf_iff_prefix, ih, List.infix_cons_iff]

/-- A string occurring as the middle block of a concatenation is found by
strIncludes. -/
theorem strIncludes_concat_mid (a b c : String) :
    strIncludes (a ++ b ++ c) b = true := by
  unfold strIncludes
  rw [subList_infix_iff, String.data_append, String.data_append]
  exact List.infix_append _ _ _

/-- find? only looks at the predicate's values. -/
theorem find?_ext {α : Type} {p q : α → Bool} (h : ∀ a, p a = q a) :
    ∀ l : List α, List.find? p l = List.find? q l := by
  intro l
  induction l with
  | nil => rfl
  | cons x xs ih => rw [List.find?_cons, List.find?_cons, h, ih]

/-- strTake of a positive count is empty only on the empty string. -/
theorem strTake_eq_empty_iff (s : String) (n : Nat) (hn : n ≠ 0) :
    strTake s n = "" ↔ s = "" := by
  rw [strTake, String.ext_iff, String.ext_iff]
  show s.data.take n = ([] : List Char) ↔ s.data = []
  rw [List.take_eq_nil_iff]
  simp [hn]

/-- Leading zero characters do not change the digit-fold value. -/
theorem digitsFold_dropZeros (xs : List Char) :
    (xs.dropWhile (· = '0')).foldl (fun n c => n * 10 + (c.toNat - 48)) 0 =
      xs.foldl (fun n c => n * 10 + (c.toNat - 48)) 0 := by
  induction xs with
  | nil => rfl
  | cons x t ih =>
    rw [List.dropWhile_cons]
    by_cases hx : x = '0'
    · subst hx
      rw [if_pos (by simp), ih]
      rfl
    · rw [if_neg (by simp [hx])]

/-- Stripping leading zeros from a digit string does not change
String(Number(s)). -/
theorem strNumber_dropLeadingZeros (s : String)
    (h : s.data.all Char.isDigit = true) :
    strNumber (dropLeadingZeros s) = strNumber s := by
  have hdata : (dropLeadingZeros s).data = s.data.dropWhile (· = '0') := rfl
  have hall : (dropLeadingZeros s).data.all Char.isDigit = true := by
    rw [hdata, List.all_eq_true] at *
    intro x hx
    exact h x ((List.dropWhile_sublist _).subset hx)
  by_cases hd : s.data.dropWhile (· = '0') = []
  · have h1 : dropLeadingZeros s = "" := by
      rw [String.ext_iff, hdata, hd]
    rw [h1]
    by_cases hs : s = ""
    · rw [hs]
    · have hfold := digitsFold_dropZeros s.data
      rw [hd] at hfold
      simp only [List.foldl_nil] at hfold
      have hb : digitsToNat? s = some 0 := by
        unfold digitsToNat?
        rw [if_pos ⟨hs, h⟩]
        exact congrArg some hfold.symm
      unfold strNumber
      rw [if_pos rfl, if_neg hs, hb]
      rfl
  · have h1 : dropLeadingZeros s ≠ "" := by
      intro he
      apply hd
      have hde := congrArg String.data he
      rw [hdata] at hde
      exact hde
    have hs : s ≠ "" := by
      intro he
      apply hd
      rw [he]
      rfl
    have ha : digitsToNat? (dropLeadingZeros s) =
        some (s.data.foldl (fun n c => n * 10 + (c.toNat - 48)) 0) := by
      unfold digitsToNat?
      rw [if_pos ⟨h1, hall⟩, hdata, digitsFold_dropZeros]
    have hb : digitsToNat? s =
        some (s.data.foldl (fun n c => n * 10 + (c.toNat - 48)) 0) := by
      unfold digitsToNat?
      rw [if_pos ⟨hs, h⟩]
    unfold strNumber
    rw [if_neg h1, if_neg hs, ha, hb]

/-! ## C6: override-table step of searchCompanyByName -/

/-- C6: the override-table step runs only for a 13F-HR or unspecified form
type; it tries an exact match of the lowercased trimmed input first, then
progressively shorter word prefixes (longest first, witnessed by the
"vanguard group inc latest 13f" resolution); and any hit determines the
result of searchCompanyByName as the curated id and name, independently of
the environment — hence without any network call. -/
theorem overrideStep_spec :
    (∀ st : String, overrideLookup st (some .tenK) = none) ∧
    (∀ (st : String) (k : KnownFiler) (ft : Option FormType),
      ft = some .thirteenF ∨ ft = none → knownFiler st = some k →
      overrideLookup st ft = some k) ∧
    (∀ (name : String) (ft : Option FormType) (env : Env) (k : KnownFiler),
      overrideLookup (jsTrim (jsToLower name)) ft = some k →
      2 ≤ (jsTrim (jsToLower name)).length →
      searchCompanyByName name ft env = some (k.cik, k.name)) ∧
    (∀ (name : String) (ft : Option FormType) (env1 env2 : Env)
      (k : KnownFiler),
      overrideLookup (jsTrim (jsToLower name)) ft = some k →
      searchCompanyByName name ft env1 = searchCompanyByName name ft env2) ∧
    overrideLookup "vanguard group inc latest 13f" (some .thirteenF) =
      some ⟨"102909", "VANGUARD GROUP INC"⟩ := by
  refine ⟨?_, ?_, ?_, ?_, ?_⟩
  · intro st
    unfold overrideLookup
    simp
  · intro st k ft hft hk
    unfold overrideLookup
    rcases hft with h | h <;> subst h <;> rw [if_pos (by simp), hk]
  · intro name ft env k hk hlen
    have hne : ¬ jsTrim (jsToLower name) = "" := by
      intro he
      rw [he] at hlen
      exact absurd hlen (by decide)
    have hlt : ¬ (jsTrim (jsToLower name)).length < 2 := not_lt.mpr hlen
    unfold searchCompanyByName
    rw [if_neg (by simp [hne, hlt]), hk]
  · intro name ft env1 env2 k hk
    unfold searchCompanyByName
    by_cases hg : (jsTrim (jsToLower name) = "" ||
        decide ((jsTrim (jsToLower name)).length < 2)) = true
    · rw [if_pos hg, if_pos hg]
    · rw [if_neg hg, if_neg hg, hk]
  · rfl

/-- Witness for C6: the prefix alias resolves the noisy input with no use
of the environment, at any length-adequate input. -/
theorem overrideStep_spec_witness :
    searchCompanyByName "Vanguard Group Inc latest 13F" (some .thirteenF)
      envBase = some ("102909", "VANGUARD GROUP INC") :=
  overrideStep_spec.2.2.1 "Vanguard Group Inc latest 13F" (some .thirteenF)
    envBase ⟨"102909", "VANGUARD GROUP INC"⟩ (by rfl) (by decide)

/-! ## C9: cache-key derivation -/

/-- C9: the cache key is derived deterministically and solely from the
dash-stripped accession id and the canonical id normalized through
String(Number(cik)); digit-string ids that agree after stripping leading
zeros give the same key, the direct-id resolution branch itself strips
leading zeros, and the zero-padded and plain forms of a concrete id hit
the same key. -/
theorem cacheKey_invariant :
    (∀ c a : String,
      (buildArchiveBase c a).2 = strNumber c ++ "-" ++ stripDashes a) ∧
    (∀ c1 c2 a : String, c1.data.all Char.isDigit = true →
      c2.data.all Char.isDigit = true →
      dropLeadingZeros c1 = dropLeadingZeros c2 →
      (buildArchiveBase c1 a).2 = (buildArchiveBase c2 a).2) ∧
    (∀ (ticker companyName : Option String) (rawCik : String) (env : Env),
      rawCik ≠ "" →
      resolveCompany ticker (some rawCik) companyName env =
        .ok ⟨dropLeadingZeros rawCik, ticker.map jsToUpper, none⟩) ∧
    (buildArchiveBase "0000320193" "0000320193-24-000123").2 =
      "320193-000032019324000123" ∧
    (buildArchiveBase "320193" "0000320193-24-000123").2 =
      "320193-000032019324000123" := by
  refine ⟨?_, ?_, ?_, ?_, ?_⟩
  · intro c a
    rfl
  · intro c1 c2 a h1 h2 hdrop
    show strNumber c1 ++ "-" ++ stripDashes a =
      strNumber c2 ++ "-" ++ stripDashes a
    rw [← strNumber_dropLeadingZeros c1 h1, ← strNumber_dropLeadingZeros c2 h2,
      hdrop]
  · intro ticker companyName rawCik env h
    unfold resolveCompany
    rw [if_pos (by simp [truthyStr, h])]
    rfl
  · rfl
  · rfl

/-- Witness for C9: the zero-padded and plain forms of the same canonical
id map to the same cache key, and the direct-id branch strips the zeros. -/
theorem cacheKey_invariant_witness :
    (buildArchiveBase "0000320193" "0000320193-24-000123").2 =
      (buildArchiveBase "320193" "0000320193-24-000123").2 ∧
    resolveCompany none (some "0000320193") none envBase =
      Except.ok ⟨"320193", none, none⟩ :=
  ⟨cacheKey_invariant.2.1 "0000320193" "320193" "0000320193-24-000123"
      (by decide) (by decide) rfl,
   cacheKey_invariant.2.2.1 none none "0000320193" envBase (by decide)⟩

/-! ## C5: directory fuzzy match -/

/-- A string found inside another is no longer than it. -/
theorem strIncludes_length_le (a b : String) (h : strIncludes a b = true) :
    b.length ≤ a.length := by
  rw [strIncludes, subList_infix_iff] at h
  exact h.length_le

/-- Without an exact title match, the scan never breaks and its running
score stays below any bound that dominates the query length and the
incoming score. -/
theorem fuzzyScan_no_exact (st : String) (entries : List CompanyTickerRecord) :
    ∀ (best : Option CompanyTickerRecord) (score : Nat),
    (∀ e ∈ entries, jsToLower e.title ≠ st) → score < 3 → st.length < 3 →
    ∃ b s, fuzzyScan st entries best score = (b, s, false) ∧ s < 3 := by
  induction entries with
  | nil =>
    intro best score _ hs _
    exact ⟨best, score, rfl, hs⟩
  | cons e rest ih =>
    intro best score h hs hl
    simp only [fuzzyScan]
    rw [if_neg (h e (List.mem_cons_self e rest))]
    refine ih _ _ (fun x hx => h x (List.mem_cons_of_mem e hx)) ?_ hl
    split_ifs <;> simp only [Bool.and_eq_true] at * <;>
      first
      | exact hs
      | exact hl
      | exact lt_of_le_of_lt
          (strIncludes_length_le st (jsToLower e.title) (by tauto)) hl

/-- C5 (amended): the scan scores an exact case-insensitive equality as an
immediate break (Infinity), scores substring containment by the contained
string's length (blackrock in "BlackRock Inc." scores 9 and is accepted),
keeps the first-encountered entry on ties, and never accepts a query
shorter than three characters through containment scoring — only an exact
title equality can accept such a query. -/
theorem directoryMatch_spec :
    fuzzyScan "blackrock" [blkRec] none 0 = (some blkRec, 9, false) ∧
    directoryMatch "blackrock" [blkRec] = some blkRec ∧
    (∀ (st : String) (entries : List CompanyTickerRecord),
      st.length < 3 → (∀ e ∈ entries, jsToLower e.title ≠ st) →
      directoryMatch st entries = none) ∧
    directoryMatch "blackrock" [tieA, tieB] = some tieA ∧
    fuzzyScan "ai" [aiRec, nvdaRec] none 0 = (some aiRec, 0, true) := by
  refine ⟨rfl, rfl, ?_, rfl, rfl⟩
  intro st entries hl h
  obtain ⟨b, s, heq, hs⟩ := fuzzyScan_no_exact st entries none 0 h (by decide) hl
  unfold directoryMatch
  rw [heq]
  cases b with
  | none => rfl
  | some e =>
    have hcond : (false || decide (s ≥ 3)) = false := by
      simp only [Bool.false_or, decide_eq_false_iff_not]
      omega
    dsimp only
    rw [if_neg (by rw [hcond]; exact Bool.false_ne_true)]

/-- Witness for C5: the two-character query against a directory without an
exactly-equal title is rejected. -/
theorem directoryMatch_spec_witness : directoryMatch "ai" [nvdaRec] = none :=
  directoryMatch_spec.2.2.1 "ai" [nvdaRec] (by decide) (by decide)

/-- C5 counterexample: a two-character query IS accepted by the directory
fuzzy-match step when a title equals it exactly (the Infinity branch), so
the claim that a two-character query can never be accepted by this step is
false. -/
theorem directoryMatch_two_char_accepted :
    directoryMatch "ai" [aiRec] = some aiRec ∧
    searchCompanyByName "AI" none { envBase with directory := .ok [aiRec] } =
      some ("9999", "AI") ∧
    ("ai" : String).length = 2 :=
  ⟨rfl, rfl, rfl⟩

/-! ## C3: filing selection -/

/-- The implementation's per-entry filter coincides with the
specification-worded filter: the empty date filter and the zero year
filter are exactly the falsy ones the implementation skips. -/
theorem entryFilter_eq_claimFilter (ft : FormType) (fd : Option String)
    (fy : Option Int) (e : SecFilingEntry) :
    entryFilter
      (match ft with
       | .thirteenF => ["13F-HR", "13F-HR/A"]
       | .tenK => ["10-K"])
      (fd.map (strTake · 10)) fy e = claimFilter ft fd fy e := by
  have hform :
      (match ft with
       | .thirteenF => ["13F-HR", "13F-HR/A"]
       | .tenK => ["10-K"]).contains e.form =
      (match ft with
       | .thirteenF => e.form == "13F-HR" || e.form == "13F-HR/A"
       | .tenK => e.form == "10-K") := by
    cases ft
    · cases h : e.form == "10-K" <;> simp [List.contains, List.elem, h]
    · cases h1 : e.form == "13F-HR" <;> cases h2 : e.form == "13F-HR/A" <;>
        simp [List.contains, List.elem, h1, h2]
  unfold entryFilter claimFilter
  cases fd with
  | none =>
    cases fy with
    | none =>
      simp only [truthyStr, truthyInt, Option.map_none]
      rw [← hform]
      cases h : (match ft with
         | .thirteenF => ["13F-HR", "13F-HR/A"]
         | .tenK => ["10-K"]).contains e.form <;> simp [h]
    | some y =>
      rw [← hform]
      by_cases hy : y = 0
      · subst hy
        cases h : (match ft with
           | .thirteenF => ["13F-HR", "13F-HR/A"]
           | .tenK => ["10-K"]).contains e.form <;>
          simp [h, truthyStr, truthyInt]
      · cases h : (match ft with
           | .thirteenF => ["13F-HR", "13F-HR/A"]
           | .tenK => ["10-K"]).contains e.form <;>
          cases h1 : yearNum (some e.filingDate) == JNum.num (y : ℚ) <;>
          cases h2 : yearNum e.reportDate == JNum.num (y : ℚ) <;>
          simp_all [truthyStr, truthyInt, beq_iff_eq]
  | some d =>
    by_cases hd : d = ""
    · subst hd
      have ht : strTake "" 10 = "" := rfl
      cases fy with
      | none =>
        rw [← hform]
        cases h : (match ft with
           | .thirteenF => ["13F-HR", "13F-HR/A"]
           | .tenK => ["10-K"]).contains e.form <;>
          simp [h, truthyStr, truthyInt, ht]
      | some y =>
        by_cases hy : y = 0
        · subst hy
          rw [← hform]
          cases h : (match ft with
             | .thirteenF => ["13F-HR", "13F-HR/A"]
             | .tenK => ["10-K"]).contains e.form <;>
            simp [h, truthyStr, truthyInt, ht]
        · rw [← hform]
          cases h : (match ft with
             | .thirteenF => ["13F-HR", "13F-HR/A"]
             | .tenK => ["10-K"]).contains e.form <;>
            cases h1 : yearNum (some e.filingDate) == JNum.num (y : ℚ) <;>
            cases h2 : yearNum e.reportDate == JNum.num (y : ℚ) <;>
            simp_all [truthyStr, truthyInt, ht, beq_iff_eq]
    · have ht : strTake d 10 ≠ "" := by
        intro he
        exact hd ((strTake_eq_empty_iff d 10 (by decide)).mp he)
      rw [← hform]
      cases h : (match ft with
         | .thirteenF => ["13F-HR", "13F-HR/A"]
         | .tenK => ["10-K"]).contains e.form <;>
        cases hfd : e.filingDate == strTake d 10 <;>
        cases fy <;>
        (try simp_all [truthyStr, truthyInt, hd, ht, beq_iff_eq,
          beq_eq_decide]) <;>
        first
        | rfl
        | exact congrArg _
            (congrArg₂ (fun x y => x || y) (decide_eq_decide.mpr Iff.rfl)
              (decide_eq_decide.mpr Iff.rfl))

/-- C3 (amended): selectFiling returns the first entry, in upstream order,
satisfying the conjunction of form-family match (13F-HR also accepts
13F-HR/A), exact date-portion equality for a NON-EMPTY date filter, and
filing-year-or-report-year equality for a NONZERO year filter (falsy
filters — the empty-string date and the zero year — are ignored); it is
null when the history, the filings object or the form list is absent, and
it is a pure function of its arguments, hence deterministic. -/
theorem selectFiling_spec :
    (∀ (ft : FormType) (fd : Option String) (fy : Option Int),
      selectFiling none ft fd fy = none) ∧
    (∀ (nm : Option String) (ft : FormType) (fd : Option String)
      (fy : Option Int), selectFiling (some ⟨nm, none⟩) ft fd fy = none) ∧
    (∀ (nm : Option String) (f : RecentFilings) (ft : FormType)
      (fd : Option String) (fy : Option Int), f.form = none →
      selectFiling (some ⟨nm, some f⟩) ft fd fy = none) ∧
    (∀ (nm : Option String) (f : RecentFilings) (forms : List String)
      (ft : FormType) (fd : Option String) (fy : Option Int),
      f.form = some forms →
      selectFiling (some ⟨nm, some f⟩) ft fd fy =
        (mkEntries f forms).find? (claimFilter ft fd fy)) := by
  refine ⟨fun _ _ _ => rfl, fun _ _ _ _ => rfl, ?_, ?_⟩
  · intro nm f ft fd fy hform
    unfold selectFiling
    simp [hform]
  · intro nm f forms ft fd fy hform
    unfold selectFiling
    simp only [Option.bind_eq_bind, Option.some_bind, hform]
    exact find?_ext (entryFilter_eq_claimFilter ft fd fy) _

/-- Witness for C3: the characterization at the concrete fixture history
with a nonempty date filter. -/
theorem selectFiling_spec_witness :
    selectFiling (some subsC3) .tenK (some "2023-01-05") none =
      some entryC3 ∧
    (mkEntries ⟨some ["10-K"], ["acc1"], ["2023-01-05"], ["2022-12-31"],
        ["doc.htm"]⟩ ["10-K"]).find?
      (claimFilter .tenK (some "2023-01-05") none) = some entryC3 := by
  constructor
  · rw [show subsC3 = Subs.mk (some "ACME")
        (some ⟨some ["10-K"], ["acc1"], ["2023-01-05"], ["2022-12-31"],
          ["doc.htm"]⟩) from rfl,
      selectFiling_spec.2.2.2 (some "ACME")
        ⟨some ["10-K"], ["acc1"], ["2023-01-05"], ["2022-12-31"], ["doc.htm"]⟩
        ["10-K"] .tenK (some "2023-01-05") none rfl]
    rfl
  · rfl

/-- C3 counterexample: with an empty-string date filter and a zero year
filter supplied, selectFiling still returns the entry even though its
filing date does not equal the first ten characters of the filter and
neither of its years equals the requested year — the truthiness guards
silently drop both filters, contradicting the claim as stated. -/
theorem selectFiling_falsy_filters :
    selectFiling (some subsC3) .tenK (some "") (some 0) = some entryC3 ∧
    entryC3.filingDate = "2023-01-05" ∧
    strTake "" 10 = "" ∧
    ("2023-01-05" : String) ≠ "" ∧
    yearNum (some entryC3.filingDate) = .num 2023 ∧
    yearNum entryC3.reportDate = .num 2022 ∧
    (2023 : ℚ) ≠ 0 ∧ (2022 : ℚ) ≠ 0 :=
  ⟨rfl, rfl, rfl, by decide, rfl, rfl, by norm_num, by norm_num⟩

/-! ## C4: numeric normalization in the holdings extractor -/

/-- C4 (amended): shares and the voting-authority sub-fields are never NaN
— a present shares value reflects a finite coercion, an absent
shrsOrPrnAmt node gives undefined shares, and each voting-authority
sub-field is undefined whenever its source is zero or absent (zero and
missing conflated) and is nonzero when present; the value field, however,
is a raw Number() coercion and is NaN when the source value is absent. -/
theorem holdingRecord_numeric_fields :
    (∀ b : JVal, votingField (JVal.num 0) b = none) ∧
    votingField JVal.undef JVal.undef = none ∧
    (∀ (a b : JVal) (q : ℚ), votingField a b = some q → q ≠ 0) ∧
    (∀ (row : InfoRow) (q : ℚ), (mapRow row).shares = some q →
      jsOrNum (jsNumber ((row.shrsOrPrnAmt.map (·.sshPrnamt)).getD .undef))
        (jsNumber ((row.shrsOrPrnAmt.map (·.sshprnamt)).getD .undef)) =
        JNum.num q) ∧
    (∀ row : InfoRow, row.shrsOrPrnAmt = none → (mapRow row).shares = none) ∧
    (mapRow { value := .undef }).value = JNum.nan := by
  refine ⟨fun _ => rfl, rfl, ?_, ?_, ?_, rfl⟩
  · intro a b q h
    unfold votingField jsNumOrUndef at h
    cases hjs : jsNumber (jsNullish a (jsNullish b (.num 0))) with
    | nan => rw [hjs] at h; cases h
    | num r =>
      rw [hjs] at h
      dsimp only at h
      by_cases hr : r = 0
      · rw [if_pos hr] at h; cases h
      · rw [if_neg hr] at h
        cases h
        exact hr
  · intro row q h
    simp only [mapRow] at h
    cases hsh : jsOrNum
        (jsNumber ((row.shrsOrPrnAmt.map (·.sshPrnamt)).getD .undef))
        (jsNumber ((row.shrsOrPrnAmt.map (·.sshprnamt)).getD .undef)) with
    | nan => rw [hsh] at h; cases h
    | num r => rw [hsh] at h; cases h; rfl
  · intro row hnone
    simp only [mapRow, hnone]
    rfl

/-- Witness for C4: concrete instances of the guarded fields. -/
theorem holdingRecord_numeric_fields_witness :
    ((5 : ℚ) ≠ 0) ∧
    jsOrNum (jsNumber (JVal.num 3)) (jsNumber JVal.undef) = JNum.num 3 ∧
    (mapRow {}).shares = none :=
  ⟨holdingRecord_numeric_fields.2.2.1 (JVal.num 5) JVal.undef 5 rfl,
   holdingRecord_numeric_fields.2.2.2.1
     { shrsOrPrnAmt := some { sshPrnamt := JVal.num 3 } } 3 rfl,
   holdingRecord_numeric_fields.2.2.2.2.1 {} rfl⟩

/-- C4 counterexample: a row with an absent value tag produces a holding
record whose value field is NaN — the extractor does not guard the value
coercion, so "never NaN" is false for the value field. -/
theorem holdingRecord_value_nan :
    parseInformationTable
        (some (.arr [some { nameOfIssuer := some "X", value := .undef }])) =
      [mapRow { nameOfIssuer := some "X", value := .undef }] ∧
    (mapRow { nameOfIssuer := some "X", value := .undef }).value = JNum.nan :=
  ⟨rfl, rfl⟩

/-! ## C2: holdings sort and limit -/

/-- Membership through the descending-insert step. -/
theorem mem_insertDesc (a x : HoldingRecord) (l : List HoldingRecord) :
    x ∈ insertDesc a l ↔ x = a ∨ x ∈ l := by
  induction l with
  | nil => simp [insertDesc]
  | cons b bs ih =>
    unfold insertDesc
    split_ifs with hb
    · simp only [List.mem_cons, ih]
      tauto
    · simp only [List.mem_cons]

/-- The descending-insert step preserves descending sortedness. -/
theorem sorted_insertDesc (a : HoldingRecord) (l : List HoldingRecord)
    (hs : List.Sorted (fun x y => valueOrZero y ≤ valueOrZero x) l) :
    List.Sorted (fun x y => valueOrZero y ≤ valueOrZero x) (insertDesc a l) := by
  induction l with
  | nil => simp [insertDesc]
  | cons b bs ih =>
    unfold insertDesc
    rw [List.sorted_cons] at hs
    split_ifs with hb
    · rw [List.sorted_cons]
      refine ⟨?_, ih hs.2⟩
      intro y hy
      rcases (mem_insertDesc a y bs).mp hy with h | h
      · subst h
        exact hb
      · exact hs.1 y h
    · rw [List.sorted_cons]
      refine ⟨?_, List.sorted_cons.mpr hs⟩
      intro y hy
      rcases List.mem_cons.mp hy with h | h
      · subst h
        exact le_of_lt (lt_of_not_ge hb)
      · exact le_trans (hs.1 y h) (le_of_lt (lt_of_not_ge hb))

/-- The sort used on holdings produces a list sorted descending by the
value-or-zero key. -/
theorem sorted_jsSortDesc (l : List HoldingRecord) :
    List.Sorted (fun x y => valueOrZero y ≤ valueOrZero x) (jsSortDesc l) := by
  suffices hgen : ∀ acc, List.Sorted (fun x y => valueOrZero y ≤ valueOrZero x) acc →
      List.Sorted (fun x y => valueOrZero y ≤ valueOrZero x)
        (l.foldl (fun acc a => insertDesc a acc) acc) by
    exact hgen [] (by simp)
  induction l with
  | nil => intro acc h; exact h
  | cons x xs ih =>
    intro acc h
    exact ih _ (sorted_insertDesc x acc h)

/-- The descending insert is a permutation step. -/
theorem perm_insertDesc (a : HoldingRecord) (l : List HoldingRecord) :
    (insertDesc a l).Perm (a :: l) := by
  induction l with
  | nil => exact List.Perm.refl _
  | cons b bs ih =>
    unfold insertDesc
    split_ifs with hb
    · exact (ih.cons b).trans (List.Perm.swap a b bs)
    · exact List.Perm.refl _

/-- The sort used on holdings is a permutation: no holding is invented,
duplicated or dropped. -/
theorem perm_jsSortDesc (l : List HoldingRecord) : (jsSortDesc l).Perm l := by
  suffices hgen : ∀ acc, (l.foldl (fun acc a => insertDesc a acc) acc).Perm
      (acc ++ l) by
    simpa using hgen []
  induction l with
  | nil => intro acc; simp [jsSortDesc]
  | cons x xs ih =>
    intro acc
    have h1 := ih (insertDesc x acc)
    have h2 : (insertDesc x acc ++ xs).Perm (acc ++ x :: xs) :=
      ((perm_insertDesc x acc).append_right xs).trans List.perm_middle.symm
    exact h1.trans h2

/-- C2 (amended): on the fresh-fetch path, whenever limitHoldings is
positive, the holdings returned by the tabular sub-path are exactly the
parsed holdings sorted descending by value (the sort is a genuine
descending sort and a permutation) and then sliced to the limit — the
limit is applied only after the sort; the spec's example holds end to end
through fetchSecFilingSummary; and the cache-hit path re-slices the
stored (already sorted at write time) holdings to the caller's limit
without re-sorting. -/
theorem holdings_sorted_then_limited :
    (∀ l : List HoldingRecord,
      List.Sorted (fun x y => valueOrZero y ≤ valueOrZero x) (jsSortDesc l)) ∧
    (∀ l : List HoldingRecord, (jsSortDesc l).Perm l) ∧
    (∀ (env : Env) (basePath pd : String) (limit : Int)
      (idx : IndexDoc) (item : IndexItem) (tbl : Option JsTableVal),
      0 < limit →
      env.fetchIndex (basePath ++ "/index.json") = .ok idx →
      pickInfoItem (((idx.directory.map (·.item)).join).getD []) pd =
        some item →
      env.locatedTable (basePath ++ "/" ++ item.name) = .ok tbl →
      (tabularSubpath env basePath pd limit).1 =
        some (jsSliceTo (jsSortDesc (parseInformationTable tbl)) limit)) ∧
    (∀ (stored : StoredSummary) (path : String) (incl : Option (List String))
      (limit : Int),
      (serveFromCache stored path incl .thirteenF limit).holdings =
        stored.summary.holdings.map (fun hs => jsSliceTo hs limit)) ∧
    (fetchSecFilingSummary (req13F 2) env13F).map
        (fun r => r.summary.holdings.map (·.map valueOrZero)) =
      .ok (some [50, 10]) := by
  refine ⟨sorted_jsSortDesc, perm_jsSortDesc, ?_, ?_, rfl⟩
  · intro env basePath pd limit idx item tbl hlim hidx hpick htbl
    unfold tabularSubpath
    rw [hidx]
    simp only [hpick, htbl]
    rw [if_pos hlim]
  · intro stored path incl limit
    unfold serveFromCache
    simp

/-- Witness for C2: the sub-path equation at the concrete 13F fixture with
limit 2, and the cache-slice equation at a concrete stored summary. -/
theorem holdings_sorted_then_limited_witness :
    (tabularSubpath env13F base13F "primary.xml" 2).1 =
      some (jsSliceTo (jsSortDesc (parseInformationTable
        (some (.arr [some row5, some row50, some row10])))) 2) :=
  holdings_sorted_then_limited.2.2.1 env13F base13F "primary.xml" 2
    ⟨some ⟨some [⟨"infotable.xml", some "4000"⟩]⟩⟩
    ⟨"infotable.xml", some "4000"⟩
    (some (.arr [some row5, some row50, some row10]))
    (by decide) rfl rfl rfl

/-- C2 counterexample: with limitHoldings = 0 the fresh path neither sorts
nor truncates — the returned holdings keep parse order in full, while the
claim (sorted descending, then truncated to the limit, for every value of
limitHoldings) predicts the empty list. -/
theorem holdings_limit_zero_not_applied :
    (fetchSecFilingSummary (req13F 0) env13F).map
        (fun r => r.summary.holdings.map (·.map valueOrZero)) =
      .ok (some [5, 50, 10]) ∧
    jsSliceTo (jsSortDesc (parseInformationTable
        (some (.arr [some row5, some row50, some row10])))) 0 = [] ∧
    ([5, 50, 10] : List ℚ) ≠ [] :=
  ⟨rfl, rfl, by decide⟩

/-! ## C7: NoFilingFound -/

/-- C7 (amended): when the entity resolves and the history arrives but no
entry passes the filters, fetchSecFilingSummary fails with NoFilingFound
(never an empty successful summary), and the message carries the CIK, the
requested form type, the filing-year filter when truthy, and the company
name when known — the filing-date filter, however, is not echoed. -/
theorem noFilingFound_spec :
    (∀ (o : SecFilingRequest) (env : Env) (company : Company) (subs : Subs),
      resolveCompany o.ticker o.cik o.companyName env = .ok company →
      fetchCompanySubmissions company.cik env = .ok subs →
      selectFiling (some subs) (o.formType.getD .tenK) o.filingDate
        o.filingYear = none →
      fetchSecFilingSummary o env =
        .error (.noFilingFound
          (noFilingMessage company (o.formType.getD .tenK) o.filingYear))) ∧
    (∀ (c : Company) (ft : FormType) (fy : Option Int),
      strIncludes (noFilingMessage c ft fy) c.cik = true ∧
      strIncludes (noFilingMessage c ft fy) ft.str = true) ∧
    (∀ (c : Company) (ft : FormType) (fy : Option Int),
      truthyInt fy = true →
      strIncludes (noFilingMessage c ft fy) (toString (fy.getD 0)) = true) ∧
    (∀ (c : Company) (ft : FormType) (fy : Option Int),
      truthyStr c.companyName = true →
      strIncludes (noFilingMessage c ft fy) (c.companyName.getD "") = true) := by
  refine ⟨?_, ?_, ?_, ?_⟩
  · intro o env company subs hres hsub hsel
    unfold fetchSecFilingSummary
    simp only [hres, hsub, hsel]
  · intro c ft fy
    constructor
    · have h : noFilingMessage c ft fy =
          ("No " ++ ft.str ++ " filing found for " ++
            joinComma
              ((if truthyStr c.companyName then [c.companyName.getD ""]
                else []) ++
               (if truthyStr c.ticker then ["ticker " ++ c.ticker.getD ""]
                else []) ++
               ["CIK " ++ c.cik]) ++
            (if truthyInt fy then " for year " ++ toString (fy.getD 0)
             else "") ++
            ". This entity (CIK ") ++ c.cik ++
          (") may not file " ++ ft.str ++
            " forms. Do NOT retry with the same entity — try a " ++
            "different company name, ticker, or CIK.") := by
        unfold noFilingMessage
        simp [String.append_assoc]
      rw [h]
      exact strIncludes_concat_mid _ _ _
    · have h : noFilingMessage c ft fy =
          ("No ") ++ ft.str ++
          (" filing found for " ++
            joinComma
              ((if truthyStr c.companyName then [c.companyName.getD ""]
                else []) ++
               (if truthyStr c.ticker then ["ticker " ++ c.ticker.getD ""]
                else []) ++
               ["CIK " ++ c.cik]) ++
            (if truthyInt fy then " for year " ++ toString (fy.getD 0)
             else "") ++
            ". This entity (CIK " ++ c.cik ++ ") may not file " ++ ft.str ++
            " forms. Do NOT retry with the same entity — try a " ++
            "different company name, ticker, or CIK.") := by
        unfold noFilingMessage
        simp [String.append_assoc]
      rw [h]
      exact strIncludes_concat_mid _ _ _
  · intro c ft fy hfy
    have h : noFilingMessage c ft fy =
        ("No " ++ ft.str ++ " filing found for " ++
          joinComma
            ((if truthyStr c.companyName then [c.companyName.getD ""]
              else []) ++
             (if truthyStr c.ticker then ["ticker " ++ c.ticker.getD ""]
              else []) ++
             ["CIK " ++ c.cik]) ++
          " for year ") ++ toString (fy.getD 0) ++
        (". This entity (CIK " ++ c.cik ++ ") may not file " ++ ft.str ++
          " forms. Do NOT retry with the same entity — try a " ++
          "different company name, ticker, or CIK.") := by
      unfold noFilingMessage
      rw [if_pos hfy]
      simp [String.append_assoc]
    rw [h]
    exact strIncludes_concat_mid _ _ _
  · intro c ft fy hname
    by_cases ht : truthyStr c.ticker = true
    · have h : noFilingMessage c ft fy =
          ("No " ++ ft.str ++ " filing found for ") ++ c.companyName.getD "" ++
          (", " ++
            joinComma (["ticker " ++ c.ticker.getD ""] ++ ["CIK " ++ c.cik]) ++
            (if truthyInt fy then " for year " ++ toString (fy.getD 0)
             else "") ++
            ". This entity (CIK " ++ c.cik ++ ") may not file " ++ ft.str ++
            " forms. Do NOT retry with the same entity — try a " ++
            "different company name, ticker, or CIK.") := by
        unfold noFilingMessage
        rw [if_pos hname, if_pos ht]
        simp [joinComma, String.append_assoc]
      rw [h]
      exact strIncludes_concat_mid _ _ _
    · have h : noFilingMessage c ft fy =
          ("No " ++ ft.str ++ " filing found for ") ++ c.companyName.getD "" ++
          (", " ++ joinComma (["CIK " ++ c.cik]) ++
            (if truthyInt fy then " for year " ++ toString (fy.getD 0)
             else "") ++
            ". This entity (CIK " ++ c.cik ++ ") may not file " ++ ft.str ++
            " forms. Do NOT retry with the same entity — try a " ++
            "different company name, ticker, or CIK.") := by
        unfold noFilingMessage
        rw [if_pos hname, if_neg ht]
        simp [joinComma, String.append_assoc]
      rw [h]
      exact strIncludes_concat_mid _ _ _

/-- Witness for C7: the propagation and the message contents at the
concrete 13F fixture with a date filter that matches nothing. -/
theorem noFilingFound_spec_witness :
    fetchSecFilingSummary
        { cik := some "1067983", formType := some .thirteenF,
          filingDate := some "2022-03-01", filingYear := some 2021 } env13F =
      .error (.noFilingFound
        (noFilingMessage ⟨"1067983", none, none⟩ .thirteenF (some 2021))) ∧
    strIncludes (noFilingMessage ⟨"1067983", none, none⟩ .thirteenF
        (some 2021)) "1067983" = true ∧
    strIncludes (noFilingMessage ⟨"1067983", none, none⟩ .thirteenF
        (some 2021)) "2021" = true :=
  ⟨noFilingFound_spec.1
      { cik := some "1067983", formType := some .thirteenF,
        filingDate := some "2022-03-01", filingYear := some 2021 } env13F
      ⟨"1067983", none, none⟩ subs13F rfl rfl rfl,
   (noFilingFound_spec.2.1 ⟨"1067983", none, none⟩ .thirteenF (some 2021)).1,
   noFilingFound_spec.2.2.1 ⟨"1067983", none, none⟩ .thirteenF (some 2021) rfl⟩

/-- C7 counterexample: the failure message never echoes the filing-date
filter — a request whose date filter excludes every entry fails with
NoFilingFound, but the supplied date does not occur in the message, so
"the message includes the supplied filters" is false for filingDate. -/
theorem noFilingFound_date_not_in_message :
    fetchSecFilingSummary
        { cik := some "1067983", formType := some .thirteenF,
          filingDate := some "2022-03-01", filingYear := some 2021 } env13F =
      .error (.noFilingFound
        (noFilingMessage ⟨"1067983", none, none⟩ .thirteenF (some 2021))) ∧
    strIncludes (noFilingMessage ⟨"1067983", none, none⟩ .thirteenF
        (some 2021)) "2022-03-01" = false :=
  ⟨rfl, rfl⟩

/-! ## C8: tabular sub-path degradation -/

/-- C8 (amended): on a 13F fresh fetch whose resolution, history fetch,
selection and primary-document fetch all succeed, the request succeeds and
delivers the metadata regardless of the holdings sub-path: an index-fetch
failure, a failed information-table file selection, or a table
fetch/parse failure each leave holdings and holdingsStats absent while the
summary is still returned. -/
theorem tabularSubpath_degrades (o : SecFilingRequest) (env : Env)
    (company : Company) (subs : Subs) (filing : SecFilingEntry)
    (body : String)
    (hft : o.formType = some .thirteenF)
    (hres : resolveCompany o.ticker o.cik o.companyName env = .ok company)
    (hsub : fetchCompanySubmissions company.cik env = .ok subs)
    (hsel : selectFiling (some subs) .thirteenF o.filingDate o.filingYear =
      some filing)
    (hcache : readCache
      (strNumber company.cik ++ "-" ++ stripDashes filing.accessionNumber)
      env = none)
    (hdoc : env.fetchDoc
      ("https://www.sec.gov/Archives/edgar/data/" ++ strNumber company.cik ++
        "/" ++ stripDashes filing.accessionNumber ++ "/" ++
        filing.primaryDocument) = .ok body) :
    ∃ outcome, fetchSecFilingSummary o env = .ok outcome ∧
      outcome.summary.metadata.cik = company.cik ∧
      outcome.summary.metadata.accessionNumber = filing.accessionNumber ∧
      outcome.summary.metadata.formType = .thirteenF ∧
      (env.fetchIndex
          ("https://www.sec.gov/Archives/edgar/data/" ++
            strNumber company.cik ++ "/" ++
            stripDashes filing.accessionNumber ++ "/index.json") =
          .error () →
        outcome.summary.holdings = none ∧
        outcome.summary.holdingsStats = none) ∧
      (∀ idx : IndexDoc,
        env.fetchIndex
          ("https://www.sec.gov/Archives/edgar/data/" ++
            strNumber company.cik ++ "/" ++
            stripDashes filing.accessionNumber ++ "/index.json") = .ok idx →
        pickInfoItem (((idx.directory.map (·.item)).join).getD [])
          filing.primaryDocument = none →
        outcome.summary.holdings = none ∧
        outcome.summary.holdingsStats = none) ∧
      (∀ (idx : IndexDoc) (item : IndexItem),
        env.fetchIndex
          ("https://www.sec.gov/Archives/edgar/data/" ++
            strNumber company.cik ++ "/" ++
            stripDashes filing.accessionNumber ++ "/index.json") = .ok idx →
        pickInfoItem (((idx.directory.map (·.item)).join).getD [])
          filing.primaryDocument = some item →
        env.locatedTable
          ("https://www.sec.gov/Archives/edgar/data/" ++
            strNumber company.cik ++ "/" ++
            stripDashes filing.accessionNumber ++ "/" ++ item.name) =
          .error () →
        outcome.summary.holdings = none ∧
        outcome.summary.holdingsStats = none) := by
  unfold fetchSecFilingSummary buildArchiveBase
  simp only [hft, hres, hsub, hsel, Option.getD_some, hcache, hdoc]
  refine ⟨_, rfl, rfl, rfl, rfl, ?_, ?_, ?_⟩
  · intro hidx
    unfold tabularSubpath
    rw [hidx]
    exact ⟨rfl, rfl⟩
  · intro idx hidx hpick
    unfold tabularSubpath
    rw [hidx]
    simp only [hpick]
    exact ⟨rfl, rfl⟩
  · intro idx item hidx hpick htbl
    unfold tabularSubpath
    rw [hidx]
    simp only [hpick, htbl]
    exact ⟨rfl, rfl⟩

/-- Witness for C8: the concrete 13F fixture with a failing index fetch
still succeeds and carries the metadata with absent holdings. -/
theorem tabularSubpath_degrades_witness :
    ∃ outcome,
      fetchSecFilingSummary
        { cik := some "1067983", formType := some .thirteenF }
        { env13F with fetchIndex := fun _ => .error () } = .ok outcome ∧
      outcome.summary.metadata.cik = "1067983" ∧
      outcome.summary.holdings = none ∧
      outcome.summary.holdingsStats = none := by
  obtain ⟨outcome, hok, hcik, _, _, hdeg, _, _⟩ :=
    tabularSubpath_degrades
      { cik := some "1067983", formType := some .thirteenF }
      { env13F with fetchIndex := fun _ => .error () }
      ⟨"1067983", none, none⟩ subs13F
      ⟨"0000950123-25-000001", "2025-02-14", some "2024-12-31", "13F-HR",
        "primary.xml"⟩
      "thirteen f cover" rfl rfl rfl rfl rfl rfl
  obtain ⟨hh, hs⟩ := hdeg rfl
  exact ⟨outcome, hok, hcik, hh, hs⟩

/-- C8 counterexample: a primary-document fetch failure terminates the
whole request with a fetch failure — a condition that is neither a
resolution failure nor no-filing-found — so "only resolution failure and
no-filing-found terminate the request" is false. -/
theorem primary_fetch_failure_terminates :
    fetchSecFilingSummary
        { cik := some "1067983", formType := some .thirteenF }
        { env13F with fetchDoc := fun _ => .error () } =
      .error .fetchFailure ∧
    (∀ m, SecError.fetchFailure ≠ .noFilingFound m) ∧
    (∀ m, SecError.fetchFailure ≠ .resolutionFailure m) :=
  ⟨rfl, fun _ h => SecError.noConfusion h, fun _ h => SecError.noConfusion h⟩

/-! ## C1: cache narrowing -/

/-- C1 (amended): the cache stores the result as narrowed for the writing
request — on a cache hit the stored sections are filtered to a truthy
includeSections subset, stored holdings are re-sliced to the caller's
limit, and the metadata is marked cached; in particular a write that
stored all five sections followed by a read requesting only risk_factors
returns a sections map with exactly that key. -/
theorem cache_narrowing_spec :
    (∀ (stored : StoredSummary) (path : String) (incl : Option (List String))
      (ft : FormType) (limit : Int), truthyLen incl = true →
      (serveFromCache stored path incl ft limit).sections =
        stored.summary.sections.filter
          (fun kv => (incl.getD []).contains kv.1)) ∧
    (∀ (stored : StoredSummary) (path : String) (incl : Option (List String))
      (limit : Int),
      (serveFromCache stored path incl .thirteenF limit).holdings =
        stored.summary.holdings.map (fun hs => jsSliceTo hs limit)) ∧
    (∀ (stored : StoredSummary) (path : String) (incl : Option (List String))
      (ft : FormType) (limit : Int),
      (serveFromCache stored path incl ft limit).metadata.cached = true ∧
      (serveFromCache stored path incl ft limit).metadata.cachePath =
        some path) ∧
    (fetchSecFilingSummary req10K env10K).map
        (fun r => r.cacheWrite.map
          (fun p => (p.1, p.2.summary.sections.map Prod.fst))) =
      .ok (some ("320193-000032019324000123",
        ["business_overview", "risk_factors", "mdna",
         "liquidity_and_market_risk", "financial_statements"])) ∧
    (fetchSecFilingSummary req10KRead env10KHit).map
        (fun r => r.summary.sections.map Prod.fst) = .ok ["risk_factors"] := by
  refine ⟨?_, ?_, ?_, rfl, rfl⟩
  · intro stored path incl ft limit h
    unfold serveFromCache
    simp only [h, if_true]
  · intro stored path incl limit
    unfold serveFromCache
    simp
  · intro stored path incl ft limit
    exact ⟨rfl, rfl⟩

/-- Witness for C1: the cache-hit narrowing at a concrete stored entry
holding two sections. -/
theorem cache_narrowing_spec_witness :
    (serveFromCache storedFix "p" (some ["risk_factors"]) .thirteenF
        5).sections =
      storedFix.summary.sections.filter
        (fun kv => (["risk_factors"]).contains kv.1) ∧
    storedFix.summary.sections.filter
        (fun kv => (["risk_factors"]).contains kv.1) =
      [("risk_factors", "r")] :=
  ⟨cache_narrowing_spec.1 storedFix "p" (some ["risk_factors"]) .thirteenF 5
      rfl,
   rfl⟩

/-- C1 counterexample: the cache does not store the maximal result.  A 13F
fresh request with limitHoldings = 1 writes a payload whose holdings were
already sorted and truncated to one element although three were parsed,
and a 10-K fresh request with includeSections = [risk_factors] writes a
payload holding only that one section although five were extracted. -/
theorem cache_write_not_maximal :
    (fetchSecFilingSummary (req13F 1) env13F).map
        (fun r => r.cacheWrite.map
          (fun p => p.2.summary.holdings.map (·.map valueOrZero))) =
      .ok (some (some [50])) ∧
    (parseInformationTable
        (some (.arr [some row5, some row50, some row10]))).length = 3 ∧
    (fetchSecFilingSummary req10KRead env10K).map
        (fun r => r.cacheWrite.map
          (fun p => p.2.summary.sections.map Prod.fst)) =
      .ok (some ["risk_factors"]) ∧
    (extractSections (stripHtml primary10K)).length = 5 :=
  ⟨rfl, rfl, rfl, rfl⟩

/-! ## C10: the rate gate -/

/-- C10 (amended): for sequential callers — each entering the gate after
the previous dispatch — consecutive dispatches are spaced by at least the
minimum delay, and the dispatch time is exactly the later of the arrival
time and last-dispatch-plus-minimum. -/
theorem rate_gate_sequential_spacing :
    (∀ last now : Int, last ≤ now →
      minDelay ≤ gateDispatch last now - last) ∧
    (∀ last now : Int, last ≤ now →
      gateDispatch last now = max now (last + minDelay)) := by
  constructor
  · intro last now h
    unfold gateDispatch minDelay at *
    split_ifs with hlt
    · omega
    · omega
  · intro last now h
    unfold gateDispatch minDelay at *
    split_ifs with hlt
    · omega
    · omega

/-- Witness for C10: a call arriving 100ms after the previous dispatch is
delayed to exactly the 150ms boundary. -/
theorem rate_gate_sequential_spacing_witness :
    minDelay ≤ gateDispatch 0 100 - 0 ∧ gateDispatch 0 100 = 150 :=
  ⟨rate_gate_sequential_spacing.1 0 100 (by decide), rfl⟩

/-- C10 counterexample: two concurrent callers that both read the shared
lastRequestTime before either updates it both suspend to the same wake
time and then both dispatch at time 150 — zero milliseconds apart, below
the minimum spacing — so the gate is not safe under concurrent callers. -/
theorem rate_gate_concurrent_violation :
    GateReach gInit gFinal ∧
    gFinal.p1 = .dispatched 150 ∧ gFinal.p2 = .dispatched 150 ∧
    (150 : Int) - 150 < minDelay := by
  refine ⟨?_, rfl, rfl, by decide⟩
  have s1 : GateStep gInit ⟨0, 0, .waiting 150, .ready⟩ :=
    GateStep.run1 gInit rfl
  have s2 : GateStep ⟨0, 0, .waiting 150, .ready⟩
      ⟨0, 0, .waiting 150, .waiting 150⟩ :=
    GateStep.run2 _ rfl
  have s3 : GateStep ⟨0, 0, .waiting 150, .waiting 150⟩
      ⟨150, 0, .waiting 150, .waiting 150⟩ :=
    GateStep.tick _ 150 (by decide)
  have s4 : GateStep ⟨150, 0, .waiting 150, .waiting 150⟩
      ⟨150, 150, .dispatched 150, .waiting 150⟩ :=
    GateStep.wake1 _ 150 rfl (by decide)
  have s5 : GateStep ⟨150, 150, .dispatched 150, .waiting 150⟩ gFinal :=
    GateStep.wake2 _ 150 rfl (by decide)
  exact (((((Relation.ReflTransGen.refl).tail s1).tail s2).tail s3).tail
    s4).tail s5
